import Mathlib

/-!
# OGX-Mini host drivers: report decoding

A shallow embedding of the report paths of two USB host drivers of the
RP2040 firmware,

* `PS3GuitarHost::process_report` (USBHost/HostDriver/PS3Guitar/PS3Guitar.cpp),
* `HIDHost::process_report` (USBHost/HostDriver/HIDGeneric/HIDGeneric.cpp),

together with the constants of `Descriptors/PS3Guitar.h`.

Conventions.  A byte is a `Fin 256`; a report buffer `(report, len)` is a
`List Byte` whose length is `len`.  Unsigned machine integers are `Nat`,
signed ones `Int`; a narrowing conversion is written out (`toUInt8`,
`toUInt16`, `toInt16`).  The calls a driver makes on its collaborators
(`gamepad.set_pad_in`, `tuh_hid_receive_report`) are recorded, in program
order, as a list of `Event`s returned next to the new driver state.
-/

namespace OGXMini

/-- One octet of a report buffer (`uint8_t`). -/
abbrev Byte := Fin 256

/-- Conversion to `uint8_t`. -/
def toUInt8 (x : Nat) : Nat := x % 256

/-- Conversion to `uint16_t`. -/
def toUInt16 (x : Nat) : Nat := x % 65536

/-- Conversion to `int16_t` (two's complement wrap-around). -/
def toInt16 (x : Int) : Int := (x + 32768) % 65536 - 32768

/-- The test `std::memcmp(a, b, n) == 0`: the first `n` bytes agree. -/
def memcmp_eq (a b : List Byte) (n : Nat) : Bool := a.take n == b.take n

/-- The call `std::memcpy(dst, src, n)`: the first `n` bytes of `dst` are
replaced by those of `src`, the rest of `dst` is kept. -/
def memcpy (dst src : List Byte) (n : Nat) : List Byte := src.take n ++ dst.drop n

/-- Modelled from the spec: the snapshot type `Gamepad::PadIn` (Gamepad.h is
not among the sources).  The fields are those the drivers write: a
directional-pad bitmask, a button bitmask, two trigger values, two joystick
axis pairs and the tilt axis.  A freshly constructed snapshot has every
field neutral. -/
structure PadIn where
  dpad : Nat := 0
  buttons : Nat := 0
  trigger_l : Nat := 0
  trigger_r : Nat := 0
  joystick_lx : Int := 0
  joystick_ly : Int := 0
  joystick_rx : Int := 0
  joystick_ry : Int := 0
  accel_x : Int := 0
deriving DecidableEq, Repr

/-- Modelled from the spec: the part of `Gamepad` the drivers read (Gamepad.h
is not among the sources): the bit masks `MAP_DPAD_*` and `MAP_BUTTON_*` of
the active mapping and the two joystick scaling functions.  Their values are
parameters of the model. -/
structure Gamepad where
  MAP_DPAD_UP : Nat
  MAP_DPAD_DOWN : Nat
  MAP_DPAD_LEFT : Nat
  MAP_DPAD_RIGHT : Nat
  MAP_DPAD_UP_LEFT : Nat
  MAP_DPAD_UP_RIGHT : Nat
  MAP_DPAD_DOWN_LEFT : Nat
  MAP_DPAD_DOWN_RIGHT : Nat
  MAP_BUTTON_A : Nat
  MAP_BUTTON_B : Nat
  MAP_BUTTON_X : Nat
  MAP_BUTTON_Y : Nat
  MAP_BUTTON_L3 : Nat
  MAP_BUTTON_R3 : Nat
  MAP_BUTTON_BACK : Nat
  MAP_BUTTON_START : Nat
  MAP_BUTTON_LB : Nat
  MAP_BUTTON_RB : Nat
  MAP_BUTTON_SYS : Nat
  MAP_BUTTON_MISC : Nat
  scale_joystick_l : Int → Int → Int × Int
  scale_joystick_r : Int → Int → Int × Int

/-- The twelve button masks of a mapping. -/
def Gamepad.buttonMasks (g : Gamepad) : List Nat :=
  [g.MAP_BUTTON_A, g.MAP_BUTTON_B, g.MAP_BUTTON_X, g.MAP_BUTTON_Y,
   g.MAP_BUTTON_LB, g.MAP_BUTTON_RB, g.MAP_BUTTON_L3, g.MAP_BUTTON_R3,
   g.MAP_BUTTON_BACK, g.MAP_BUTTON_START, g.MAP_BUTTON_SYS, g.MAP_BUTTON_MISC]

/-- The four cardinal directional-pad masks of a mapping. -/
def Gamepad.dpadMasks (g : Gamepad) : List Nat :=
  [g.MAP_DPAD_UP, g.MAP_DPAD_DOWN, g.MAP_DPAD_LEFT, g.MAP_DPAD_RIGHT]

/-- A mapping names distinct flags: every button mask is non-zero and no two
share a bit, and likewise for the four cardinal directions. -/
def Gamepad.distinctFlags (g : Gamepad) : Prop :=
  (∀ m ∈ g.buttonMasks, m ≠ 0) ∧ g.buttonMasks.Pairwise (fun a b => a &&& b = 0) ∧
  (∀ m ∈ g.dpadMasks, m ≠ 0) ∧ g.dpadMasks.Pairwise (fun a b => a &&& b = 0)

instance (g : Gamepad) : Decidable g.distinctFlags := by
  unfold Gamepad.distinctFlags; infer_instance

/-- A flag of a bitmask field is set when the field shares a bit with the
flag's mask (the test `field & MASK`). -/
def flagSet (field mask : Nat) : Prop := field &&& mask ≠ 0

instance (field mask : Nat) : Decidable (flagSet field mask) := by
  unfold flagSet; infer_instance

/-- A concrete mapping used to evaluate the model: one bit per flag, diagonal
directions as the union of their two cardinals, scaling by the identity. -/
def sampleGamepad : Gamepad where
  MAP_DPAD_UP := 0x01
  MAP_DPAD_DOWN := 0x02
  MAP_DPAD_LEFT := 0x04
  MAP_DPAD_RIGHT := 0x08
  MAP_DPAD_UP_LEFT := 0x05
  MAP_DPAD_UP_RIGHT := 0x09
  MAP_DPAD_DOWN_LEFT := 0x06
  MAP_DPAD_DOWN_RIGHT := 0x0A
  MAP_BUTTON_A := 0x0001
  MAP_BUTTON_B := 0x0002
  MAP_BUTTON_X := 0x0004
  MAP_BUTTON_Y := 0x0008
  MAP_BUTTON_L3 := 0x0010
  MAP_BUTTON_R3 := 0x0020
  MAP_BUTTON_BACK := 0x0040
  MAP_BUTTON_START := 0x0080
  MAP_BUTTON_LB := 0x0100
  MAP_BUTTON_RB := 0x0200
  MAP_BUTTON_SYS := 0x0400
  MAP_BUTTON_MISC := 0x0800
  scale_joystick_l := fun x y => (x, y)
  scale_joystick_r := fun x y => (x, y)

/-- A call a driver makes on a collaborator: a snapshot written to the sink
(`gamepad.set_pad_in`) or the next report read armed
(`tuh_hid_receive_report`). -/
inductive Event where
  | set_pad_in (gp_in : PadIn)
  | tuh_hid_receive_report (address inst : Nat)
deriving DecidableEq, Repr

/-- The snapshots written to the sink, in order. -/
def emitted : List Event → List PadIn
  | [] => []
  | Event.set_pad_in p :: es => p :: emitted es
  | Event.tuh_hid_receive_report _ _ :: es => emitted es

/-- How many times the next report read was armed. -/
def rearms : List Event → Nat
  | [] => 0
  | Event.set_pad_in _ :: es => rearms es
  | Event.tuh_hid_receive_report _ _ :: es => rearms es + 1

/-- The statement `if (c) stmt;` on the local snapshot: `stmt` is applied when
the condition holds and the snapshot is left as it is otherwise. -/
def applyIf (c : Prop) [Decidable c] (stmt : PadIn → PadIn) (gp_in : PadIn) : PadIn :=
  if c then stmt gp_in else gp_in

/-! ## Descriptors/PS3Guitar.h -/

namespace PS3Guitar

namespace Buttons0
def SELECT : Nat := 0x01
def L3 : Nat := 0x02
def R3 : Nat := 0x04
def START : Nat := 0x08
def STRUM_UP : Nat := 0x10
def DPAD_RIGHT : Nat := 0x20
def STRUM_DOWN : Nat := 0x40
def DPAD_LEFT : Nat := 0x80
end Buttons0

namespace Buttons1
def L2 : Nat := 0x01
def R2 : Nat := 0x02
def ORANGE : Nat := 0x04
def R1 : Nat := 0x08
def YELLOW : Nat := 0x10
def RED : Nat := 0x20
def BLUE : Nat := 0x40
def GREEN : Nat := 0x80
end Buttons1

namespace Buttons2
def PS : Nat := 0x01
end Buttons2

/-- The packed struct `InReport` viewed over a byte buffer: field `i` is the
byte at its offset.  Only the fields `process_report` reads are given. -/
def buttons0 (report_data : List Byte) : Nat := (report_data.getD 0 0).val
def buttons1 (report_data : List Byte) : Nat := (report_data.getD 1 0).val
def buttons2 (report_data : List Byte) : Nat := (report_data.getD 2 0).val
def joystick_lx (report_data : List Byte) : Nat := (report_data.getD 3 0).val
def joystick_ly (report_data : List Byte) : Nat := (report_data.getD 4 0).val
def joystick_rx (report_data : List Byte) : Nat := (report_data.getD 5 0).val

end PS3Guitar

/-! ## USBHost/HostDriver/PS3Guitar/PS3Guitar.cpp -/

/-- The state of a guitar driver that `process_report` reads and writes: the
stored previous frame `prev_in_report_`, a `PS3Guitar::InReport`, which is 27
bytes long (the `static_assert` of PS3Guitar.h, line 50).  (`init_state_` is
touched only by `initialize` and `init_complete_cb`.) -/
structure PS3GuitarHost where
  prev_in_report_ : List Byte
  size_eq : prev_in_report_.length = 27
deriving DecidableEq

namespace PS3GuitarHost

/-- The size of a report without Report ID (PS3Guitar.cpp, line 64). -/
def REPORT_SIZE_NO_ID : Nat := 27

/-- The size of a report with Report ID (PS3Guitar.cpp, line 65). -/
def REPORT_SIZE_WITH_ID : Nat := 28

/-- The local `raw_accel_x`: the little-endian composition of bytes 19 and 20
of the frame, stored in a `uint16_t` (PS3Guitar.cpp, lines 99-100). -/
def raw_accel_x (report_data : List Byte) : Nat :=
  toUInt16 ((report_data.getD 19 0).val ||| ((report_data.getD 20 0).val <<< 8))

/-- The local `gp_in` of `process_report` as it stands when it is handed to
`gamepad.set_pad_in` (PS3Guitar.cpp, lines 110-168). -/
def gp_in (gamepad : Gamepad) (report_data : List Byte) : PadIn :=
  let raw_accel_x := raw_accel_x report_data
  let gp_in : PadIn := {}
  -- lines 116-125
  let gp_in := applyIf (PS3Guitar.buttons1 report_data &&& PS3Guitar.Buttons1.GREEN ≠ 0)
    (fun p => { p with buttons := p.buttons ||| gamepad.MAP_BUTTON_A }) gp_in
  let gp_in := applyIf (PS3Guitar.buttons1 report_data &&& PS3Guitar.Buttons1.RED ≠ 0)
    (fun p => { p with buttons := p.buttons ||| gamepad.MAP_BUTTON_B }) gp_in
  let gp_in := applyIf (PS3Guitar.buttons1 report_data &&& PS3Guitar.Buttons1.YELLOW ≠ 0)
    (fun p => { p with buttons := p.buttons ||| gamepad.MAP_BUTTON_Y }) gp_in
  let gp_in := applyIf (PS3Guitar.buttons1 report_data &&& PS3Guitar.Buttons1.BLUE ≠ 0)
    (fun p => { p with buttons := p.buttons ||| gamepad.MAP_BUTTON_X }) gp_in
  let gp_in := applyIf (PS3Guitar.buttons1 report_data &&& PS3Guitar.Buttons1.ORANGE ≠ 0)
    (fun p => { p with buttons := p.buttons ||| gamepad.MAP_BUTTON_LB }) gp_in
  -- lines 128-131
  let gp_in := applyIf (PS3Guitar.buttons0 report_data &&& PS3Guitar.Buttons0.STRUM_UP ≠ 0)
    (fun p => { p with dpad := p.dpad ||| gamepad.MAP_DPAD_UP }) gp_in
  let gp_in := applyIf (PS3Guitar.buttons0 report_data &&& PS3Guitar.Buttons0.STRUM_DOWN ≠ 0)
    (fun p => { p with dpad := p.dpad ||| gamepad.MAP_DPAD_DOWN }) gp_in
  -- lines 134-139
  let gp_in := applyIf (PS3Guitar.buttons0 report_data &&& PS3Guitar.Buttons0.START ≠ 0)
    (fun p => { p with buttons := p.buttons ||| gamepad.MAP_BUTTON_START }) gp_in
  let gp_in := applyIf (PS3Guitar.buttons0 report_data &&& PS3Guitar.Buttons0.SELECT ≠ 0)
    (fun p => { p with buttons := p.buttons ||| gamepad.MAP_BUTTON_BACK }) gp_in
  let gp_in := applyIf (PS3Guitar.buttons2 report_data &&& PS3Guitar.Buttons2.PS ≠ 0)
    (fun p => { p with buttons := p.buttons ||| gamepad.MAP_BUTTON_SYS }) gp_in
  -- lines 142-149
  let gp_in := { gp_in with
    joystick_rx := toInt16 (((PS3Guitar.joystick_rx report_data : Nat) - 128 : Int) * 256) }
  let gp_in := { gp_in with
    joystick_lx := toInt16 (((PS3Guitar.joystick_lx report_data : Nat) - 128 : Int) * 256) }
  let gp_in := { gp_in with
    joystick_ly := toInt16 (((PS3Guitar.joystick_ly report_data : Nat) - 128 : Int) * 256) }
  -- lines 159-168
  if raw_accel_x > 0 ∧ raw_accel_x < 1024
    then { gp_in with accel_x := toInt16 (raw_accel_x : Nat),
                      trigger_l := toUInt8 (raw_accel_x / 4) }
    else { gp_in with accel_x := 455 }

/-- Whether the buffer is taken to start with a Report ID: it is 28 bytes
long and its first byte is 0x00 or 0x01 (PS3Guitar.cpp, line 72). -/
def has_report_id (report : List Byte) : Bool :=
  report.length == REPORT_SIZE_WITH_ID && (report.getD 0 0 == 0x00 || report.getD 0 0 == 0x01)

/-- The local `report_data`: the buffer past its Report ID, when it has one
(PS3Guitar.cpp, lines 68-75). -/
def report_data (report : List Byte) : List Byte :=
  if has_report_id report then report.drop 1 else report

/-- The local `report_len`: the length left past the Report ID (PS3Guitar.cpp,
lines 69-75). -/
def report_len (report : List Byte) : Nat :=
  if has_report_id report then report.length - 1 else report.length

/-- The method `PS3GuitarHost::process_report` (PS3Guitar.cpp, lines 59-173):
the new driver state and the calls made, in order. -/
def process_report (self : PS3GuitarHost) (gamepad : Gamepad) (address inst : Nat)
    (report : List Byte) : PS3GuitarHost × List Event :=
  -- lines 78-81
  if h : report_len report < REPORT_SIZE_NO_ID then
    (self, [Event.tuh_hid_receive_report address inst])
  -- lines 84-87
  else if memcmp_eq self.prev_in_report_ (report_data report) REPORT_SIZE_NO_ID then
    (self, [Event.tuh_hid_receive_report address inst])
  else
    -- line 90
    let self : PS3GuitarHost :=
      { prev_in_report_ := memcpy self.prev_in_report_ (report_data report) REPORT_SIZE_NO_ID
        size_eq := by
          have hs := self.size_eq
          have hd : (report_data report).length = report_len report := by
            unfold report_data report_len; split <;> simp
          simp only [memcpy, REPORT_SIZE_NO_ID, List.length_append, List.length_take,
            List.length_drop] at h ⊢
          omega }
    -- lines 92-172
    (self, [Event.set_pad_in (gp_in gamepad (report_data report)),
            Event.tuh_hid_receive_report address inst])

end PS3GuitarHost

/-- The frame of the worked example: select and strum-up held, green fret
held, every axis at 128, tilt sample 0x01C7. -/
def exampleFrame : List Byte :=
  [0x11, 0x80, 0, 128, 128, 128, 128, 0, 0, 0, 0, 0, 0, 0, 0, 0, 0, 0, 0, 0xC7, 0x01,
   0, 0, 0, 0, 0, 0]

/-! ## USBHost/HostDriver/HIDGeneric/HIDGeneric.cpp -/

/-- Modelled from the spec: the hat-switch value of the generic extractor
(USBHost/HIDParser is not among the sources): the eight directions that
`process_report` tests, and the centre every other value maps to. -/
inductive HIDJoystickHatSwitch where
  | UP | UP_RIGHT | RIGHT | DOWN_RIGHT | DOWN | DOWN_LEFT | LEFT | UP_LEFT | CENTER
deriving DecidableEq, Repr

/-- Modelled from the spec: the extractor's output `HIDJoystickData`
(USBHost/HIDParser is not among the sources), with the fields
`process_report` reads: four raw axes, the hat switch, and the button array,
given by its index function (`buttons i` is the truth value of
`buttons[i]`). -/
structure HIDJoystickData where
  X : Int := 0
  Y : Int := 0
  Z : Int := 0
  Rz : Int := 0
  hat_switch : HIDJoystickHatSwitch := HIDJoystickHatSwitch.CENTER
  buttons : Nat → Bool := fun _ => false

/-- Modelled from the spec: `Range::MAX<uint8_t>` (Range.h is not among the
sources), the value of a fully pressed trigger: the largest unsigned byte. -/
def Range_MAX_uint8 : Nat := 255

/-- The swapped face-button mapping is selected by this descriptor length
(HIDGeneric.cpp, line 77). -/
def SWAPPED_DESC_LEN : Nat := 176

/-- What stops `HIDHost::process_report` outside the contract of its callers:
`hid_joystick_` dereferenced while null, or `prev_report_in_` accessed beyond
its end. -/
inductive Fault where
  | null_dereference
  | buffer_overrun
deriving DecidableEq, Repr

/-- The state of a generic HID driver.  `J` is the type of the extractor
object `HIDJoystick` held by `hid_joystick_` (`none` is the null pointer);
`prev_report_in_` is a byte array of fixed size, the length of the list. -/
structure HIDHost (J : Type) where
  prev_report_in_ : List Byte
  report_desc_len_ : Nat := 0
  report_desc_buffer_ : List Byte
  hid_joystick_ : Option J := none
  hid_joystick_data_ : HIDJoystickData := {}

namespace HIDHost

/-- The hat switch written to the directional pad of `gp_in`
(HIDGeneric.cpp, lines 43-70). -/
def gp_in_hat_switch (gamepad : Gamepad) (hid_joystick_data_ : HIDJoystickData)
    (gp_in : PadIn) : PadIn :=
  match hid_joystick_data_.hat_switch with
  | HIDJoystickHatSwitch.UP => { gp_in with dpad := gp_in.dpad ||| gamepad.MAP_DPAD_UP }
  | HIDJoystickHatSwitch.UP_RIGHT =>
      { gp_in with dpad := gp_in.dpad ||| gamepad.MAP_DPAD_UP_RIGHT }
  | HIDJoystickHatSwitch.RIGHT => { gp_in with dpad := gp_in.dpad ||| gamepad.MAP_DPAD_RIGHT }
  | HIDJoystickHatSwitch.DOWN_RIGHT =>
      { gp_in with dpad := gp_in.dpad ||| gamepad.MAP_DPAD_DOWN_RIGHT }
  | HIDJoystickHatSwitch.DOWN => { gp_in with dpad := gp_in.dpad ||| gamepad.MAP_DPAD_DOWN }
  | HIDJoystickHatSwitch.DOWN_LEFT =>
      { gp_in with dpad := gp_in.dpad ||| gamepad.MAP_DPAD_DOWN_LEFT }
  | HIDJoystickHatSwitch.LEFT => { gp_in with dpad := gp_in.dpad ||| gamepad.MAP_DPAD_LEFT }
  | HIDJoystickHatSwitch.UP_LEFT =>
      { gp_in with dpad := gp_in.dpad ||| gamepad.MAP_DPAD_UP_LEFT }
  | HIDJoystickHatSwitch.CENTER => gp_in

/-- The scaled axes written to the two sticks of `gp_in` (HIDGeneric.cpp,
lines 72-75). -/
def gp_in_joysticks (gamepad : Gamepad) (hid_joystick_data_ : HIDJoystickData)
    (gp_in : PadIn) : PadIn :=
  let l := gamepad.scale_joystick_l hid_joystick_data_.X hid_joystick_data_.Y
  let gp_in : PadIn := { gp_in with joystick_lx := l.1, joystick_ly := l.2 }
  let r := gamepad.scale_joystick_r hid_joystick_data_.Z hid_joystick_data_.Rz
  { gp_in with joystick_rx := r.1, joystick_ry := r.2 }

/-- The face buttons, `buttons[1]` to `buttons[4]`, written to `gp_in` under
the table the stored descriptor length selects (HIDGeneric.cpp, lines
77-99). -/
def gp_in_face_buttons (gamepad : Gamepad) (report_desc_len_ : Nat)
    (hid_joystick_data_ : HIDJoystickData) (gp_in : PadIn) : PadIn :=
  if report_desc_len_ = SWAPPED_DESC_LEN then
    let gp_in : PadIn := applyIf (hid_joystick_data_.buttons 1)
      (fun p => { p with buttons := p.buttons ||| gamepad.MAP_BUTTON_Y }) gp_in
    let gp_in : PadIn := applyIf (hid_joystick_data_.buttons 2)
      (fun p => { p with buttons := p.buttons ||| gamepad.MAP_BUTTON_B }) gp_in
    let gp_in : PadIn := applyIf (hid_joystick_data_.buttons 3)
      (fun p => { p with buttons := p.buttons ||| gamepad.MAP_BUTTON_A }) gp_in
    applyIf (hid_joystick_data_.buttons 4)
      (fun p => { p with buttons := p.buttons ||| gamepad.MAP_BUTTON_X }) gp_in
  else
    let gp_in : PadIn := applyIf (hid_joystick_data_.buttons 1)
      (fun p => { p with buttons := p.buttons ||| gamepad.MAP_BUTTON_X }) gp_in
    let gp_in : PadIn := applyIf (hid_joystick_data_.buttons 2)
      (fun p => { p with buttons := p.buttons ||| gamepad.MAP_BUTTON_A }) gp_in
    let gp_in : PadIn := applyIf (hid_joystick_data_.buttons 3)
      (fun p => { p with buttons := p.buttons ||| gamepad.MAP_BUTTON_B }) gp_in
    applyIf (hid_joystick_data_.buttons 4)
      (fun p => { p with buttons := p.buttons ||| gamepad.MAP_BUTTON_Y }) gp_in

/-- The remaining buttons, `buttons[5]` to `buttons[14]`, written to `gp_in`
(HIDGeneric.cpp, lines 100-119). -/
def gp_in_buttons (gamepad : Gamepad) (hid_joystick_data_ : HIDJoystickData)
    (gp_in : PadIn) : PadIn :=
  let gp_in : PadIn := applyIf (hid_joystick_data_.buttons 5)
    (fun p => { p with buttons := p.buttons ||| gamepad.MAP_BUTTON_LB }) gp_in
  let gp_in : PadIn := applyIf (hid_joystick_data_.buttons 6)
    (fun p => { p with buttons := p.buttons ||| gamepad.MAP_BUTTON_RB }) gp_in
  let gp_in : PadIn := applyIf (hid_joystick_data_.buttons 7)
    (fun p => { p with trigger_l := Range_MAX_uint8 }) gp_in
  let gp_in : PadIn := applyIf (hid_joystick_data_.buttons 8)
    (fun p => { p with trigger_r := Range_MAX_uint8 }) gp_in
  let gp_in : PadIn := applyIf (hid_joystick_data_.buttons 9)
    (fun p => { p with buttons := p.buttons ||| gamepad.MAP_BUTTON_BACK }) gp_in
  let gp_in : PadIn := applyIf (hid_joystick_data_.buttons 10)
    (fun p => { p with buttons := p.buttons ||| gamepad.MAP_BUTTON_START }) gp_in
  let gp_in : PadIn := applyIf (hid_joystick_data_.buttons 11)
    (fun p => { p with buttons := p.buttons ||| gamepad.MAP_BUTTON_L3 }) gp_in
  let gp_in : PadIn := applyIf (hid_joystick_data_.buttons 12)
    (fun p => { p with buttons := p.buttons ||| gamepad.MAP_BUTTON_R3 }) gp_in
  let gp_in : PadIn := applyIf (hid_joystick_data_.buttons 13)
    (fun p => { p with buttons := p.buttons ||| gamepad.MAP_BUTTON_SYS }) gp_in
  applyIf (hid_joystick_data_.buttons 14)
    (fun p => { p with buttons := p.buttons ||| gamepad.MAP_BUTTON_MISC }) gp_in

/-- The fixed-offset tilt read written to `gp_in` (HIDGeneric.cpp, lines
125-128). -/
def gp_in_accel (report : List Byte) (gp_in : PadIn) : PadIn :=
  let len := report.length
  if len ≥ 43 then
    let raw_accel := toUInt16 (((report.getD 41 0).val <<< 8) ||| (report.getD 42 0).val)
    { gp_in with accel_x := toInt16 ((raw_accel >>> 6 : Nat)) }
  else gp_in

/-- The local `gp_in` of `process_report` as it stands when it is handed to
`gamepad.set_pad_in` (HIDGeneric.cpp, lines 41-128), from the mapping, the
stored descriptor length, the extracted data and the report buffer: the
default snapshot taken through the five blocks of assignments in order. -/
def gp_in (gamepad : Gamepad) (report_desc_len_ : Nat)
    (hid_joystick_data_ : HIDJoystickData) (report : List Byte) : PadIn :=
  let gp_in : PadIn := {}
  let gp_in := gp_in_hat_switch gamepad hid_joystick_data_ gp_in
  let gp_in := gp_in_joysticks gamepad hid_joystick_data_ gp_in
  let gp_in := gp_in_face_buttons gamepad report_desc_len_ hid_joystick_data_ gp_in
  let gp_in := gp_in_buttons gamepad hid_joystick_data_ gp_in
  gp_in_accel report gp_in

/-- The method `HIDHost::process_report` (HIDGeneric.cpp, lines 26-133): the
new driver state and the calls made, in order, or the fault that stops it.

`parseData j report data` stands for `j.parseData(report, len, &data)` of the
extractor (USBHost/HIDParser is not among the sources): it answers whether
the extraction succeeded, and gives the extractor and the data as the call
leaves them; it is taken not to write to the report buffer. -/
def process_report {J : Type}
    (parseData : J → List Byte → HIDJoystickData → Bool × J × HIDJoystickData)
    (self : HIDHost J) (gamepad : Gamepad) (address inst : Nat) (report : List Byte) :
    Except Fault (HIDHost J × List Event) :=
  let len := report.length
  -- lines 29 and 34 access `len` bytes of `prev_report_in_`
  if len > self.prev_report_in_.length then
    Except.error Fault.buffer_overrun
  -- lines 29-32
  else if memcmp_eq self.prev_report_in_ report len then
    Except.ok (self, [Event.tuh_hid_receive_report address inst])
  else
    -- line 34
    let self : HIDHost J :=
      { self with prev_report_in_ := memcpy self.prev_report_in_ report len }
    -- lines 35-39
    match self.hid_joystick_ with
    | none => Except.error Fault.null_dereference
    | some j =>
      let parsed := parseData j report self.hid_joystick_data_
      let self : HIDHost J :=
        { self with hid_joystick_ := some parsed.2.1, hid_joystick_data_ := parsed.2.2 }
      if parsed.1 = false then
        Except.ok (self, [Event.tuh_hid_receive_report address inst])
      else
        -- lines 41-132
        Except.ok (self,
          [Event.set_pad_in (gp_in gamepad self.report_desc_len_ self.hid_joystick_data_ report),
           Event.tuh_hid_receive_report address inst])

/-- The state `process_report` leaves when the buffer is not a duplicate and
the extractor `j` is in place: the buffer copied over the stored report
(line 34) and the extractor and its data as `parseData` leaves them (line
35). -/
def decoded {J : Type}
    (parseData : J → List Byte → HIDJoystickData → Bool × J × HIDJoystickData)
    (self : HIDHost J) (j : J) (report : List Byte) : HIDHost J :=
  { self with
    prev_report_in_ := memcpy self.prev_report_in_ report report.length
    hid_joystick_ := some (parseData j report self.hid_joystick_data_).2.1
    hid_joystick_data_ := (parseData j report self.hid_joystick_data_).2.2 }

end HIDHost

/-- An extractor for evaluating the model: it holds nothing, fails on a
report that starts with 0xFF, and otherwise reports button `i` pressed when
bit `i` of the little-endian value of the first two bytes is set (a byte
that is not there counts as 0). -/
def sampleParseData (j : Unit) (report : List Byte) (data : HIDJoystickData) :
    Bool × Unit × HIDJoystickData :=
  if report.getD 0 0 = 0xFF then (false, j, data)
  else (true, j,
    { data with buttons := fun i =>
        ((report.getD 0 0).val + 256 * (report.getD 1 0).val).testBit i })

/-- The sample extractor with `buttons[0]` always reported as released. -/
def sampleParseDataSkip0 (j : Unit) (report : List Byte) (data : HIDJoystickData) :
    Bool × Unit × HIDJoystickData :=
  if report.getD 0 0 = 0xFF then (false, j, data)
  else (true, j,
    { data with buttons := fun i =>
        i != 0 && ((report.getD 0 0).val + 256 * (report.getD 1 0).val).testBit i })

/-- A generic-driver session for evaluating the model: an 8-byte previous
report holding `prev` (cut or padded with zeros), the given stored descriptor
length, and an extractor in place. -/
def sampleHIDHost (desc_len : Nat) (prev : List Byte) : HIDHost Unit :=
  { prev_report_in_ := (prev ++ List.replicate 8 0).take 8
    report_desc_len_ := desc_len
    report_desc_buffer_ := []
    hid_joystick_ := some () }

/-- The calls recorded by a run of `HIDHost::process_report`, when it is not
stopped by a fault. -/
def calls {J : Type} (r : Except Fault (HIDHost J × List Event)) : Option (List Event) :=
  match r with
  | Except.ok out => some out.2
  | Except.error _ => none

/-- Successive reports delivered to one generic-driver session: the calls
recorded for each report, in order, when no call is stopped by a fault. -/
def deliver {J : Type}
    (parseData : J → List Byte → HIDJoystickData → Bool × J × HIDJoystickData)
    (self : HIDHost J) (gamepad : Gamepad) (address inst : Nat) :
    List (List Byte) → Option (List (List Event))
  | [] => some []
  | report :: rest =>
    match HIDHost.process_report parseData self gamepad address inst report with
    | Except.ok out =>
      (deliver parseData out.1 gamepad address inst rest).map (fun later => out.2 :: later)
    | Except.error _ => none

/-- The worked example with the neck raised: tilt sample 0x0184. -/
def raisedFrame : List Byte :=
  [0x11, 0x80, 0, 128, 128, 128, 128, 0, 0, 0, 0, 0, 0, 0, 0, 0, 0, 0, 0, 0x84, 0x01,
   0, 0, 0, 0, 0, 0]

/-- The worked example with a tilt sample out of range: bytes 0x00, 0x04,
that is 1024. -/
def overRangeFrame : List Byte :=
  [0x11, 0x80, 0, 128, 128, 128, 128, 0, 0, 0, 0, 0, 0, 0, 0, 0, 0, 0, 0, 0x00, 0x04,
   0, 0, 0, 0, 0, 0]

/-- A guitar session whose stored previous frame is `frame`, cut or padded
with zeros to 27 bytes. -/
def guitarSession (frame : List Byte) : PS3GuitarHost :=
  { prev_in_report_ := (frame ++ List.replicate 27 0).take 27
    size_eq := by simp }

/-- The term a conditional `field |= mask` contributes to a bitmask field. -/
def sel (c : Prop) [Decidable c] (mask : Nat) : Nat := if c then mask else 0

/-- The mapping with X exchanged with Y and A exchanged with B. -/
def Gamepad.swapFace (g : Gamepad) : Gamepad :=
  { g with MAP_BUTTON_X := g.MAP_BUTTON_Y, MAP_BUTTON_Y := g.MAP_BUTTON_X,
           MAP_BUTTON_A := g.MAP_BUTTON_B, MAP_BUTTON_B := g.MAP_BUTTON_A }

/-- Two extractions that differ at most in `buttons[0]`. -/
def HIDJoystickData.agreeExceptButton0 (d e : HIDJoystickData) : Prop :=
  d.X = e.X ∧ d.Y = e.Y ∧ d.Z = e.Z ∧ d.Rz = e.Rz ∧ d.hat_switch = e.hat_switch ∧
  ∀ i, i ≠ 0 → d.buttons i = e.buttons i

/-- The method `HIDHost::initialize` (HIDGeneric.cpp, lines 9-24): the new
driver state and the calls made, in order.  The descriptor `(report_desc,
desc_len)` is `none` for a null pointer and otherwise the list of its
`desc_len` bytes.  `make_joystick buffer len` stands for the extractor built
from the stored descriptor (USBHost/HIDParser is not among the sources). -/
def HIDHost.initialize {J : Type} (make_joystick : List Byte → Nat → J)
    (self : HIDHost J) (address inst : Nat) (report_desc : Option (List Byte)) :
    HIDHost J × List Event :=
  match report_desc with
  -- lines 11-13
  | none => (self, [])
  | some desc =>
    let desc_len := desc.length
    if desc_len = 0 then (self, [])
    else
      -- line 15
      let self : HIDHost J := { self with report_desc_len_ := desc_len }
      -- lines 16-18
      let copied := min self.report_desc_len_ self.report_desc_buffer_.length
      let self : HIDHost J :=
        { self with report_desc_buffer_ := memcpy self.report_desc_buffer_ desc copied }
      -- lines 19-21
      let joystick := make_joystick self.report_desc_buffer_ self.report_desc_len_
      let self : HIDHost J := { self with hid_joystick_ := some joystick }
      -- line 23
      (self, [Event.tuh_hid_receive_report address inst])

/-- A generic-driver session before `initialize`: no descriptor length, an
empty 8-byte descriptor buffer, no extractor. -/
def freshHIDHost : HIDHost Unit :=
  { prev_report_in_ := List.replicate 8 0
    report_desc_buffer_ := List.replicate 8 0 }

/-- A generic-driver session for evaluating the model with long reports: a
64-byte previous report of zeros and an extractor in place. -/
def wideHIDHost : HIDHost Unit :=
  { prev_report_in_ := List.replicate 64 0
    report_desc_buffer_ := []
    hid_joystick_ := some () }

/-- A 43-byte report of zeros but for bytes 41 and 42, which hold 0x71 and
0xC0. -/
def quirkReport : List Byte := List.replicate 41 0 ++ [0x71, 0xC0]

/-! ## USBHost/HostDriver/PS3V2/PS3V2.h -/

namespace PS3V2Host

/-- The enumeration `InitStage` (PS3V2.h, line 28). -/
inductive InitStage where
  | RESP1 | RESP2 | RESP3 | RESP4 | DONE
deriving DecidableEq, Repr

/-- The value of an `InitStage` enumerator. -/
def InitStage.toNat : InitStage → Nat
  | InitStage.RESP1 => 0
  | InitStage.RESP2 => 1
  | InitStage.RESP3 => 2
  | InitStage.RESP4 => 3
  | InitStage.DONE => 4

/-- The struct `InitState` (PS3V2.h, lines 30-36), with its default member
initialisers; `init_buffer` has none.  `out_report` is a pointer, `none`
when null, and what it points to is not modelled. -/
structure InitState where
  dev_addr : Nat := 0xFF
  stage : InitStage := InitStage.RESP1
  init_buffer : List Byte
  out_report : Option Unit := none
  reports_enabled : Bool := false
deriving DecidableEq, Repr

/-- Modelled from the spec: the stage that follows a stage at a
control-transfer completion (PS3V2.cpp is not among the sources): RESP1,
RESP2, RESP3, RESP4, DONE in this order, one step at a time, with no way
back; DONE is final. -/
def InitStage.next : InitStage → InitStage
  | InitStage.RESP1 => InitStage.RESP2
  | InitStage.RESP2 => InitStage.RESP3
  | InitStage.RESP3 => InitStage.RESP4
  | InitStage.RESP4 => InitStage.DONE
  | InitStage.DONE => InitStage.DONE

/-- Modelled from the spec: the completion callback
`PS3V2Host::get_report_complete_cb` (declared in PS3V2.h, line 48; PS3V2.cpp
is not among the sources).  Its argument is the session the completed
transfer refers to, `none` once that session has been discarded: then the
callback does nothing; on a live session it advances the stage by one
step. -/
def get_report_complete_cb (session : Option InitState) : Option InitState :=
  match session with
  | none => none
  | some init_state => some { init_state with stage := init_state.stage.next }

/-- The session after `n` control-transfer completions. -/
def completions : Nat → Option InitState → Option InitState
  | 0, session => session
  | n + 1, session => completions n (get_report_complete_cb session)

end PS3V2Host

/-- The worked example with the given tilt bytes 19 and 20. -/
def tiltFrame (b19 b20 : Byte) : List Byte :=
  [0x11, 0x80, 0, 128, 128, 128, 128, 0, 0, 0, 0, 0, 0, 0, 0, 0, 0, 0, 0, b19, b20,
   0, 0, 0, 0, 0, 0]

/-! ## Bitmask flags -/

theorem lor_eq_zero (a b : Nat) : a ||| b = 0 ↔ a = 0 ∧ b = 0 := by
  constructor
  · intro h
    have hb : ∀ i, (a ||| b).testBit i = false := by
      intro i; rw [h]; exact Nat.zero_testBit i
    simp only [Nat.testBit_or, Bool.or_eq_false_iff] at hb
    exact ⟨Nat.eq_of_testBit_eq (fun i => by simp [(hb i).1]),
      Nat.eq_of_testBit_eq (fun i => by simp [(hb i).2])⟩
  · rintro ⟨rfl, rfl⟩; rfl

theorem flagSet_zero (k : Nat) : flagSet 0 k ↔ False := by simp [flagSet]

theorem flagSet_or (x m k : Nat) : flagSet (x ||| m) k ↔ flagSet x k ∨ flagSet m k := by
  unfold flagSet
  rw [Nat.and_distrib_right, Ne, lor_eq_zero]
  tauto

theorem flagSet_sel (c : Prop) [Decidable c] (m k : Nat) :
    flagSet (sel c m) k ↔ c ∧ flagSet m k := by
  unfold sel; split <;> simp [*, flagSet_zero]

theorem flagSet_self (m : Nat) : flagSet m m ↔ m ≠ 0 := by simp [flagSet]

theorem applyIf_buttons_or (c : Prop) [Decidable c] (m : Nat) (p : PadIn) :
    applyIf c (fun p => { p with buttons := p.buttons ||| m }) p
      = { p with buttons := p.buttons ||| sel c m } := by
  unfold applyIf sel; split <;> simp

theorem applyIf_dpad_or (c : Prop) [Decidable c] (m : Nat) (p : PadIn) :
    applyIf c (fun p => { p with dpad := p.dpad ||| m }) p
      = { p with dpad := p.dpad ||| sel c m } := by
  unfold applyIf sel; split <;> simp

/-- The facts a mapping with distinct flags gives about its twelve button
masks and four directions: no mask is zero, and no two share a bit. -/
theorem Gamepad.distinctFlags.unfold {g : Gamepad} (hg : g.distinctFlags) :
    (∀ m ∈ g.buttonMasks, flagSet m m) ∧
    g.buttonMasks.Pairwise (fun a b => ¬ flagSet a b ∧ ¬ flagSet b a) ∧
    (∀ m ∈ g.dpadMasks, flagSet m m) ∧
    g.dpadMasks.Pairwise (fun a b => ¬ flagSet a b ∧ ¬ flagSet b a) := by
  obtain ⟨h1, h2, h3, h4⟩ := hg
  refine ⟨fun m hm => (flagSet_self m).2 (h1 m hm), h2.imp ?_,
    fun m hm => (flagSet_self m).2 (h3 m hm), h4.imp ?_⟩ <;>
  · intro a b hab
    exact ⟨fun h => h hab, fun h => h (by rw [Nat.and_comm]; exact hab)⟩

/-! ## The guitar driver -/

namespace PS3GuitarHost

/-- The snapshot the guitar driver builds, field by field. -/
theorem gp_in_eq (g : Gamepad) (d : List Byte) :
    gp_in g d =
      { dpad := sel (PS3Guitar.buttons0 d &&& PS3Guitar.Buttons0.STRUM_UP ≠ 0) g.MAP_DPAD_UP |||
                sel (PS3Guitar.buttons0 d &&& PS3Guitar.Buttons0.STRUM_DOWN ≠ 0) g.MAP_DPAD_DOWN
        buttons := sel (PS3Guitar.buttons1 d &&& PS3Guitar.Buttons1.GREEN ≠ 0) g.MAP_BUTTON_A |||
          sel (PS3Guitar.buttons1 d &&& PS3Guitar.Buttons1.RED ≠ 0) g.MAP_BUTTON_B |||
          sel (PS3Guitar.buttons1 d &&& PS3Guitar.Buttons1.YELLOW ≠ 0) g.MAP_BUTTON_Y |||
          sel (PS3Guitar.buttons1 d &&& PS3Guitar.Buttons1.BLUE ≠ 0) g.MAP_BUTTON_X |||
          sel (PS3Guitar.buttons1 d &&& PS3Guitar.Buttons1.ORANGE ≠ 0) g.MAP_BUTTON_LB |||
          sel (PS3Guitar.buttons0 d &&& PS3Guitar.Buttons0.START ≠ 0) g.MAP_BUTTON_START |||
          sel (PS3Guitar.buttons0 d &&& PS3Guitar.Buttons0.SELECT ≠ 0) g.MAP_BUTTON_BACK |||
          sel (PS3Guitar.buttons2 d &&& PS3Guitar.Buttons2.PS ≠ 0) g.MAP_BUTTON_SYS
        trigger_l := if 0 < raw_accel_x d ∧ raw_accel_x d < 1024
          then toUInt8 (raw_accel_x d / 4) else 0
        trigger_r := 0
        joystick_lx := toInt16 (((PS3Guitar.joystick_lx d : Nat) - 128 : Int) * 256)
        joystick_ly := toInt16 (((PS3Guitar.joystick_ly d : Nat) - 128 : Int) * 256)
        joystick_rx := toInt16 (((PS3Guitar.joystick_rx d : Nat) - 128 : Int) * 256)
        joystick_ry := 0
        accel_x := if 0 < raw_accel_x d ∧ raw_accel_x d < 1024
          then toInt16 (raw_accel_x d : Nat) else 455 } := by
  simp only [gp_in, applyIf_buttons_or, applyIf_dpad_or, Nat.zero_or, gt_iff_lt]
  split <;> rfl

theorem ext_state {a b : PS3GuitarHost} (h : a.prev_in_report_ = b.prev_in_report_) : a = b := by
  cases a; cases b; cases h; rfl

/-- A buffer of 27 bytes is its own canonical frame. -/
theorem report_data_frame (f : List Byte) (hlen : f.length = 27) :
    report_data f = f ∧ report_len f = 27 := by
  simp [report_data, report_len, has_report_id, hlen, REPORT_SIZE_WITH_ID]

/-- A 28-byte buffer that starts with 0x00 or 0x01 has the 27 bytes after it
as its canonical frame. -/
theorem report_data_with_id (id : Byte) (f : List Byte) (hlen : f.length = 27)
    (hid : id = 0x00 ∨ id = 0x01) :
    report_data (id :: f) = f ∧ report_len (id :: f) = 27 := by
  rcases hid with rfl | rfl <;>
    simp [report_data, report_len, has_report_id, hlen, REPORT_SIZE_WITH_ID]

/-- The stored frame is overwritten whole by a frame of at least 27 bytes. -/
theorem memcpy_frame (self : PS3GuitarHost) (d : List Byte) :
    memcpy self.prev_in_report_ d 27 = d.take 27 := by
  have h : self.prev_in_report_.drop 27 = [] :=
    List.drop_eq_nil_of_le (le_of_eq self.size_eq)
  simp [memcpy, h]

/-- The comparison with the stored frame is an equality with the first 27
bytes of the frame. -/
theorem memcmp_frame (self : PS3GuitarHost) (d : List Byte) :
    memcmp_eq self.prev_in_report_ d 27 = true ↔ self.prev_in_report_ = d.take 27 := by
  have h : self.prev_in_report_.take 27 = self.prev_in_report_ :=
    List.take_of_length_le (le_of_eq self.size_eq)
  simp [memcmp_eq, h]

/-- The three exits of `process_report`, by the canonical frame of the
buffer. -/
theorem process_report_short (self : PS3GuitarHost) (g : Gamepad) (a i : Nat)
    (report : List Byte) (h : report_len report < 27) :
    process_report self g a i report = (self, [Event.tuh_hid_receive_report a i]) := by
  simp [process_report, REPORT_SIZE_NO_ID, h]

theorem process_report_duplicate (self : PS3GuitarHost) (g : Gamepad) (a i : Nat)
    (report : List Byte) (h : 27 ≤ report_len report)
    (hdup : self.prev_in_report_ = (report_data report).take 27) :
    process_report self g a i report = (self, [Event.tuh_hid_receive_report a i]) := by
  have hm := (memcmp_frame self (report_data report)).2 hdup
  simp [process_report, REPORT_SIZE_NO_ID, Nat.not_lt.2 h, hm]

theorem process_report_changed (self : PS3GuitarHost) (g : Gamepad) (a i : Nat)
    (report : List Byte) (h : 27 ≤ report_len report)
    (hnew : self.prev_in_report_ ≠ (report_data report).take 27) :
    (process_report self g a i report).1.prev_in_report_ = (report_data report).take 27 ∧
    (process_report self g a i report).2 =
      [Event.set_pad_in (gp_in g (report_data report)), Event.tuh_hid_receive_report a i] := by
  have hm : memcmp_eq self.prev_in_report_ (report_data report) 27 = false := by
    rw [← Bool.not_eq_true, memcmp_frame]; exact hnew
  simp [process_report, REPORT_SIZE_NO_ID, Nat.not_lt.2 h, hm, memcpy_frame]

/-- After any call on an accepted buffer the stored frame is the canonical
frame of that buffer. -/
theorem process_report_stored (self : PS3GuitarHost) (g : Gamepad) (a i : Nat)
    (report : List Byte) (h : 27 ≤ report_len report) :
    (process_report self g a i report).1.prev_in_report_ = (report_data report).take 27 := by
  by_cases hdup : self.prev_in_report_ = (report_data report).take 27
  · rw [process_report_duplicate self g a i report h hdup]; exact hdup
  · exact (process_report_changed self g a i report h hdup).1

theorem sel_pos {c : Prop} [Decidable c] (h : c) (m : Nat) : sel c m = m := by simp [sel, h]
theorem sel_neg {c : Prop} [Decidable c] (h : ¬ c) (m : Nat) : sel c m = 0 := by simp [sel, h]

/-- What the guitar driver's snapshot holds for the worked example, under any
mapping. -/
theorem gp_in_exampleFrame (g : Gamepad) :
    gp_in g exampleFrame =
      { dpad := g.MAP_DPAD_UP, buttons := g.MAP_BUTTON_A ||| g.MAP_BUTTON_BACK,
        trigger_l := 113, accel_x := 455 } := by
  rw [gp_in_eq]
  have h19 : raw_accel_x exampleFrame = 455 := by decide
  have b0 : PS3Guitar.buttons0 exampleFrame = 0x11 := by decide
  have b1 : PS3Guitar.buttons1 exampleFrame = 0x80 := by decide
  have b2 : PS3Guitar.buttons2 exampleFrame = 0 := by decide
  have j3 : PS3Guitar.joystick_lx exampleFrame = 128 := by decide
  have j4 : PS3Guitar.joystick_ly exampleFrame = 128 := by decide
  have j5 : PS3Guitar.joystick_rx exampleFrame = 128 := by decide
  rw [h19, b0, b1, b2, j3, j4, j5]
  rw [sel_pos (by decide), sel_neg (by decide), sel_pos (by decide), sel_neg (by decide),
    sel_neg (by decide), sel_neg (by decide), sel_neg (by decide), sel_neg (by decide),
    sel_pos (by decide), sel_neg (by decide)]
  simp [toInt16, toUInt8]

end PS3GuitarHost

/-- C1: a 27-byte frame that differs from the stored previous frame makes
`PS3GuitarHost::process_report` write exactly one snapshot and then re-arm
the read.  Under a mapping with distinct flags, the snapshot has A iff
byte1&0x80, B iff byte1&0x20, Y iff byte1&0x10, X iff byte1&0x40, left
shoulder iff byte1&0x04, start iff byte0&0x08, back iff byte0&0x01, system
iff byte2&0x01, dpad-up iff byte0&0x10, dpad-down iff byte0&0x40, and no
other button or direction.  For the worked example frame the buttons are
exactly A and back, the dpad is up, every joystick axis is 0 and the tilt
is 455.  Whatever the mapping, the button mask is the union of the masks of
the eight table entries whose bit is set, and the dpad mask the union of up
and down likewise. -/
theorem C1_guitar_button_table (self : PS3GuitarHost) (gamepad : Gamepad)
    (address inst : Nat) (frame : List Byte)
    (hlen : frame.length = 27) (hnew : frame ≠ self.prev_in_report_)
    (hg : gamepad.distinctFlags) :
    ∃ s : PadIn,
      (self.process_report gamepad address inst frame).2
        = [Event.set_pad_in s, Event.tuh_hid_receive_report address inst] ∧
      (flagSet s.buttons gamepad.MAP_BUTTON_A ↔ (frame.getD 1 0).val &&& 0x80 ≠ 0) ∧
      (flagSet s.buttons gamepad.MAP_BUTTON_B ↔ (frame.getD 1 0).val &&& 0x20 ≠ 0) ∧
      (flagSet s.buttons gamepad.MAP_BUTTON_Y ↔ (frame.getD 1 0).val &&& 0x10 ≠ 0) ∧
      (flagSet s.buttons gamepad.MAP_BUTTON_X ↔ (frame.getD 1 0).val &&& 0x40 ≠ 0) ∧
      (flagSet s.buttons gamepad.MAP_BUTTON_LB ↔ (frame.getD 1 0).val &&& 0x04 ≠ 0) ∧
      (flagSet s.buttons gamepad.MAP_BUTTON_START ↔ (frame.getD 0 0).val &&& 0x08 ≠ 0) ∧
      (flagSet s.buttons gamepad.MAP_BUTTON_BACK ↔ (frame.getD 0 0).val &&& 0x01 ≠ 0) ∧
      (flagSet s.buttons gamepad.MAP_BUTTON_SYS ↔ (frame.getD 2 0).val &&& 0x01 ≠ 0) ∧
      (flagSet s.dpad gamepad.MAP_DPAD_UP ↔ (frame.getD 0 0).val &&& 0x10 ≠ 0) ∧
      (flagSet s.dpad gamepad.MAP_DPAD_DOWN ↔ (frame.getD 0 0).val &&& 0x40 ≠ 0) ∧
      ¬ flagSet s.buttons gamepad.MAP_BUTTON_RB ∧
      ¬ flagSet s.buttons gamepad.MAP_BUTTON_L3 ∧
      ¬ flagSet s.buttons gamepad.MAP_BUTTON_R3 ∧
      ¬ flagSet s.buttons gamepad.MAP_BUTTON_MISC ∧
      ¬ flagSet s.dpad gamepad.MAP_DPAD_LEFT ∧
      ¬ flagSet s.dpad gamepad.MAP_DPAD_RIGHT ∧
      s.buttons =
        sel ((frame.getD 1 0).val &&& 0x80 ≠ 0) gamepad.MAP_BUTTON_A |||
        sel ((frame.getD 1 0).val &&& 0x20 ≠ 0) gamepad.MAP_BUTTON_B |||
        sel ((frame.getD 1 0).val &&& 0x10 ≠ 0) gamepad.MAP_BUTTON_Y |||
        sel ((frame.getD 1 0).val &&& 0x40 ≠ 0) gamepad.MAP_BUTTON_X |||
        sel ((frame.getD 1 0).val &&& 0x04 ≠ 0) gamepad.MAP_BUTTON_LB |||
        sel ((frame.getD 0 0).val &&& 0x08 ≠ 0) gamepad.MAP_BUTTON_START |||
        sel ((frame.getD 0 0).val &&& 0x01 ≠ 0) gamepad.MAP_BUTTON_BACK |||
        sel ((frame.getD 2 0).val &&& 0x01 ≠ 0) gamepad.MAP_BUTTON_SYS ∧
      s.dpad =
        sel ((frame.getD 0 0).val &&& 0x10 ≠ 0) gamepad.MAP_DPAD_UP |||
        sel ((frame.getD 0 0).val &&& 0x40 ≠ 0) gamepad.MAP_DPAD_DOWN ∧
      (frame = exampleFrame →
        s.buttons = gamepad.MAP_BUTTON_A ||| gamepad.MAP_BUTTON_BACK ∧
        s.dpad = gamepad.MAP_DPAD_UP ∧
        s.joystick_lx = 0 ∧ s.joystick_ly = 0 ∧ s.joystick_rx = 0 ∧ s.joystick_ry = 0 ∧
        s.accel_x = 455) := by
  obtain ⟨hd, hl⟩ := PS3GuitarHost.report_data_frame frame hlen
  have hne : self.prev_in_report_ ≠ (PS3GuitarHost.report_data frame).take 27 := by
    rw [hd, List.take_of_length_le (le_of_eq hlen)]; exact Ne.symm hnew
  have hrun := (PS3GuitarHost.process_report_changed self gamepad address inst frame
    (by omega) hne).2
  rw [hd] at hrun
  refine ⟨PS3GuitarHost.gp_in gamepad frame, hrun, ?_⟩
  have hflags := hg.unfold
  simp only [Gamepad.buttonMasks, Gamepad.dpadMasks, List.pairwise_cons, List.mem_cons,
    List.mem_singleton, forall_eq_or_imp, forall_eq, List.not_mem_nil, false_implies,
    implies_true, List.Pairwise.nil, and_true] at hflags
  obtain ⟨hself, hpair, hdself, hdpair⟩ := hflags
  refine ⟨?_, ?_, ?_, ?_, ?_, ?_, ?_, ?_, ?_, ?_, ?_, ?_, ?_, ?_, ?_, ?_, ?_, ?_, ?_⟩
  case refine_17 => rw [PS3GuitarHost.gp_in_eq]; rfl
  case refine_18 => rw [PS3GuitarHost.gp_in_eq]; rfl
  case refine_19 =>
    rintro rfl
    rw [PS3GuitarHost.gp_in_exampleFrame]
    simp
  all_goals
    simp only [PS3GuitarHost.gp_in_eq, flagSet_or, flagSet_sel, PS3Guitar.buttons0,
      PS3Guitar.buttons1, PS3Guitar.buttons2, PS3Guitar.Buttons0.STRUM_UP,
      PS3Guitar.Buttons0.STRUM_DOWN, PS3Guitar.Buttons0.START, PS3Guitar.Buttons0.SELECT,
      PS3Guitar.Buttons1.GREEN, PS3Guitar.Buttons1.RED, PS3Guitar.Buttons1.YELLOW,
      PS3Guitar.Buttons1.BLUE, PS3Guitar.Buttons1.ORANGE, PS3Guitar.Buttons2.PS,
      hself, hpair, hdself, hdpair, and_true, and_false, or_false, false_or, not_false_eq_true]

/-- C1, at the worked example: a session with an all-zero stored frame and
the sample mapping. -/
theorem C1_guitar_button_table_witness :
    ∃ s : PadIn,
      ((guitarSession []).process_report sampleGamepad 1 0 exampleFrame).2
        = [Event.set_pad_in s, Event.tuh_hid_receive_report 1 0] ∧
      s.buttons = 0x41 ∧ s.dpad = 0x01 ∧ s.accel_x = 455 := by
  obtain ⟨s, h1, _, _, _, _, _, _, _, _, _, _, _, _, _, _, _, _, _, _, h⟩ :=
    C1_guitar_button_table (guitarSession []) sampleGamepad 1 0 exampleFrame
      (by decide) (by decide) (by decide)
  obtain ⟨hb, hd, _, _, _, _, ha⟩ := h rfl
  exact ⟨s, h1, by rw [hb]; decide, by rw [hd]; decide, ha⟩

namespace PS3GuitarHost

/-- The tilt sample is the little-endian value of bytes 19 and 20. -/
theorem raw_accel_x_eq (d : List Byte) :
    raw_accel_x d = (d.getD 19 0).val + 256 * (d.getD 20 0).val := by
  have h19 : (d.getD 19 0).val < 2 ^ 8 := (d.getD 19 0).isLt
  have h20 : (d.getD 20 0).val < 256 := (d.getD 20 0).isLt
  unfold raw_accel_x toUInt16
  rw [Nat.shiftLeft_eq, Nat.or_comm, Nat.mul_comm, ← Nat.mul_add_lt_is_or h19]
  omega

/-- `process_report` looks at a buffer only through its canonical frame and
the length left past the Report ID. -/
theorem process_report_congr (self : PS3GuitarHost) (g : Gamepad) (a i : Nat)
    (r1 r2 : List Byte) (hd : report_data r1 = report_data r2)
    (hl : report_len r1 = report_len r2) :
    process_report self g a i r1 = process_report self g a i r2 := by
  by_cases hs : report_len r1 < 27
  · rw [process_report_short self g a i r1 hs, process_report_short self g a i r2 (hl ▸ hs)]
  · have h1 : 27 ≤ report_len r1 := Nat.not_lt.1 hs
    have h2 : 27 ≤ report_len r2 := hl ▸ h1
    by_cases hdup : self.prev_in_report_ = (report_data r1).take 27
    · rw [process_report_duplicate self g a i r1 h1 hdup,
        process_report_duplicate self g a i r2 h2 (hd ▸ hdup)]
    · obtain ⟨p1, t1⟩ := process_report_changed self g a i r1 h1 hdup
      obtain ⟨p2, t2⟩ := process_report_changed self g a i r2 h2 (hd ▸ hdup)
      refine Prod.ext (ext_state ?_) ?_
      · rw [p1, p2, hd]
      · rw [t1, t2, hd]

/-- The short-frame exit is taken by the buffers of fewer than 27 bytes, and
by no other. -/
theorem report_len_lt_iff (report : List Byte) :
    report_len report < 27 ↔ report.length < 27 := by
  unfold report_len has_report_id REPORT_SIZE_WITH_ID
  split
  · rename_i h
    simp only [Bool.and_eq_true, beq_iff_eq] at h
    omega
  · rfl

end PS3GuitarHost

/-- C2, refuted as stated: the worked example and the same frame with the
tilt bytes replaced by 0x84, 0x01 differ in bytes 19 and 20 only, both are
decoded, and the two snapshots differ in the left trigger (113 against 97)
as well as in the tilt. -/
theorem C2_left_trigger_follows_tilt :
    (∀ j < 27, j ≠ 19 → j ≠ 20 → exampleFrame.getD j 0 = raisedFrame.getD j 0) ∧
    ((guitarSession []).process_report sampleGamepad 1 0 exampleFrame).2
      = [Event.set_pad_in { dpad := 1, buttons := 0x41, trigger_l := 113, accel_x := 455 },
         Event.tuh_hid_receive_report 1 0] ∧
    ((guitarSession []).process_report sampleGamepad 1 0 raisedFrame).2
      = [Event.set_pad_in { dpad := 1, buttons := 0x41, trigger_l := 97, accel_x := 388 },
         Event.tuh_hid_receive_report 1 0] := by
  decide

/-- C2, amended: two 27-byte frames that differ only in bytes 19 and 20, each
different from the stored previous frame of its session, give snapshots that
agree on the dpad, the buttons, the right trigger and the four joystick
axes; the tilt axis and the left trigger, which mirrors the tilt sample, may
differ.  For the worked example and its raised variant the tilt goes from
455 to 388 and the left trigger from 113 to 97. -/
theorem C2_tilt_bytes_effect (self₁ self₂ : PS3GuitarHost) (gamepad : Gamepad)
    (address inst : Nat) (f₁ f₂ : List Byte)
    (hlen₁ : f₁.length = 27) (hlen₂ : f₂.length = 27)
    (hnew₁ : f₁ ≠ self₁.prev_in_report_) (hnew₂ : f₂ ≠ self₂.prev_in_report_)
    (hsame : ∀ j, j ≠ 19 → j ≠ 20 → f₁.getD j 0 = f₂.getD j 0) :
    ∃ s₁ s₂ : PadIn,
      (self₁.process_report gamepad address inst f₁).2
        = [Event.set_pad_in s₁, Event.tuh_hid_receive_report address inst] ∧
      (self₂.process_report gamepad address inst f₂).2
        = [Event.set_pad_in s₂, Event.tuh_hid_receive_report address inst] ∧
      s₁.dpad = s₂.dpad ∧ s₁.buttons = s₂.buttons ∧ s₁.trigger_r = s₂.trigger_r ∧
      s₁.joystick_lx = s₂.joystick_lx ∧ s₁.joystick_ly = s₂.joystick_ly ∧
      s₁.joystick_rx = s₂.joystick_rx ∧ s₁.joystick_ry = s₂.joystick_ry ∧
      (f₁ = exampleFrame → f₂ = raisedFrame →
        s₁.accel_x = 455 ∧ s₂.accel_x = 388 ∧ s₁.trigger_l = 113 ∧ s₂.trigger_l = 97) := by
  obtain ⟨hd₁, -⟩ := PS3GuitarHost.report_data_frame f₁ hlen₁
  obtain ⟨hd₂, -⟩ := PS3GuitarHost.report_data_frame f₂ hlen₂
  have hrun₁ := (PS3GuitarHost.process_report_changed self₁ gamepad address inst f₁
    (by rw [(PS3GuitarHost.report_data_frame f₁ hlen₁).2])
    (by rw [hd₁, List.take_of_length_le (le_of_eq hlen₁)]; exact Ne.symm hnew₁)).2
  have hrun₂ := (PS3GuitarHost.process_report_changed self₂ gamepad address inst f₂
    (by rw [(PS3GuitarHost.report_data_frame f₂ hlen₂).2])
    (by rw [hd₂, List.take_of_length_le (le_of_eq hlen₂)]; exact Ne.symm hnew₂)).2
  rw [hd₁] at hrun₁
  rw [hd₂] at hrun₂
  refine ⟨_, _, hrun₁, hrun₂, ?_⟩
  have e0 := hsame 0 (by decide) (by decide)
  have e1 := hsame 1 (by decide) (by decide)
  have e2 := hsame 2 (by decide) (by decide)
  have e3 := hsame 3 (by decide) (by decide)
  have e4 := hsame 4 (by decide) (by decide)
  have e5 := hsame 5 (by decide) (by decide)
  simp only [PS3GuitarHost.gp_in_eq, PS3Guitar.buttons0, PS3Guitar.buttons1,
    PS3Guitar.buttons2, PS3Guitar.joystick_lx, PS3Guitar.joystick_ly, PS3Guitar.joystick_rx,
    e0, e1, e2, e3, e4, e5, true_and]
  rintro rfl rfl
  decide

/-- C2 amended, at the worked example and its raised variant. -/
theorem C2_tilt_bytes_effect_witness :
    ∃ s₁ s₂ : PadIn,
      ((guitarSession []).process_report sampleGamepad 1 0 exampleFrame).2
        = [Event.set_pad_in s₁, Event.tuh_hid_receive_report 1 0] ∧
      ((guitarSession []).process_report sampleGamepad 1 0 raisedFrame).2
        = [Event.set_pad_in s₂, Event.tuh_hid_receive_report 1 0] ∧
      s₁.buttons = s₂.buttons ∧ s₁.dpad = s₂.dpad ∧ s₁.accel_x = 455 ∧ s₂.accel_x = 388 := by
  obtain ⟨s₁, s₂, h₁, h₂, hd, hb, _, _, _, _, _, h⟩ :=
    C2_tilt_bytes_effect (guitarSession []) (guitarSession []) sampleGamepad 1 0
      exampleFrame raisedFrame (by decide) (by decide) (by decide) (by decide)
      (by
        intro j h19 h20
        by_cases hj : j < 27
        · revert h19 h20; revert j; decide
        · have h1 : exampleFrame.length ≤ j := by simpa [exampleFrame] using Nat.not_lt.1 hj
          have h2 : raisedFrame.length ≤ j := by simpa [raisedFrame] using Nat.not_lt.1 hj
          rw [List.getD_eq_default _ _ h1, List.getD_eq_default _ _ h2])
  exact ⟨s₁, s₂, h₁, h₂, hb, hd, (h rfl rfl).1, (h rfl rfl).2.1⟩

/-- C3: the tilt sample is byte19 + 256*byte20, and a 27-byte frame that
differs from the stored previous frame and whose sample is 0 or at least
1024 still makes `process_report` write one snapshot and re-arm the read;
the tilt axis of that snapshot is 455. -/
theorem C3_tilt_fallback (self : PS3GuitarHost) (gamepad : Gamepad) (address inst : Nat)
    (frame : List Byte) (hlen : frame.length = 27) (hnew : frame ≠ self.prev_in_report_)
    (hraw : PS3GuitarHost.raw_accel_x frame = 0 ∨ 1024 ≤ PS3GuitarHost.raw_accel_x frame) :
    PS3GuitarHost.raw_accel_x frame = (frame.getD 19 0).val + 256 * (frame.getD 20 0).val ∧
    ∃ s : PadIn,
      (self.process_report gamepad address inst frame).2
        = [Event.set_pad_in s, Event.tuh_hid_receive_report address inst] ∧
      s.accel_x = 455 := by
  obtain ⟨hd, hl⟩ := PS3GuitarHost.report_data_frame frame hlen
  have hrun := (PS3GuitarHost.process_report_changed self gamepad address inst frame
    (by rw [hl])
    (by rw [hd, List.take_of_length_le (le_of_eq hlen)]; exact Ne.symm hnew)).2
  rw [hd] at hrun
  refine ⟨PS3GuitarHost.raw_accel_x_eq frame, _, hrun, ?_⟩
  rw [PS3GuitarHost.gp_in_eq]
  have hnot : ¬ (0 < PS3GuitarHost.raw_accel_x frame ∧
      PS3GuitarHost.raw_accel_x frame < 1024) := by
    omega
  simp [hnot]

/-- C3, at the worked example with tilt bytes 0x00, 0x04 (sample 1024). -/
theorem C3_tilt_fallback_witness :
    ∃ s : PadIn,
      ((guitarSession []).process_report sampleGamepad 1 0 overRangeFrame).2
        = [Event.set_pad_in s, Event.tuh_hid_receive_report 1 0] ∧
      s.accel_x = 455 :=
  (C3_tilt_fallback (guitarSession []) sampleGamepad 1 0 overRangeFrame
    (by decide) (by decide) (by decide)).2

/-- C4: a 28-byte buffer made of a Report ID 0x00 or 0x01 followed by a
27-byte frame is processed exactly as the frame alone: the same new state
(stored previous frame) and the same calls (snapshot, if any, and re-arm). -/
theorem C4_report_id_stripped (self : PS3GuitarHost) (gamepad : Gamepad) (address inst : Nat)
    (id : Byte) (f : List Byte) (hlen : f.length = 27) (hid : id = 0x00 ∨ id = 0x01) :
    self.process_report gamepad address inst (id :: f)
      = self.process_report gamepad address inst f := by
  obtain ⟨hd, hl⟩ := PS3GuitarHost.report_data_frame f hlen
  obtain ⟨hd', hl'⟩ := PS3GuitarHost.report_data_with_id id f hlen hid
  exact PS3GuitarHost.process_report_congr self gamepad address inst _ _
    (hd'.trans hd.symm) (hl'.trans hl.symm)

/-- C4, at the worked example behind a Report ID of 0x01. -/
theorem C4_report_id_stripped_witness :
    (guitarSession []).process_report sampleGamepad 1 0 (0x01 :: exampleFrame)
      = (guitarSession []).process_report sampleGamepad 1 0 exampleFrame :=
  C4_report_id_stripped (guitarSession []) sampleGamepad 1 0 0x01 exampleFrame
    (by decide) (by decide)

/-- C5: the length left after Report-ID stripping is below 27 exactly for the
buffers of fewer than 27 bytes, and for such a buffer `process_report`
writes no snapshot, leaves the state (the stored previous frame) as it was,
and re-arms the read once. -/
theorem C5_short_buffer_dropped (self : PS3GuitarHost) (gamepad : Gamepad)
    (address inst : Nat) (report : List Byte) :
    (PS3GuitarHost.report_len report < PS3GuitarHost.REPORT_SIZE_NO_ID ↔ report.length < 27) ∧
    (report.length < 27 →
      self.process_report gamepad address inst report
        = (self, [Event.tuh_hid_receive_report address inst]) ∧
      emitted (self.process_report gamepad address inst report).2 = [] ∧
      rearms (self.process_report gamepad address inst report).2 = 1) := by
  refine ⟨PS3GuitarHost.report_len_lt_iff report, fun h => ?_⟩
  have hrun := PS3GuitarHost.process_report_short self gamepad address inst report
    ((PS3GuitarHost.report_len_lt_iff report).2 h)
  rw [hrun]
  exact ⟨rfl, rfl, rfl⟩

/-- C5, at the first 26 bytes of the worked example. -/
theorem C5_short_buffer_dropped_witness :
    (guitarSession []).process_report sampleGamepad 1 0 (exampleFrame.take 26)
      = (guitarSession [], [Event.tuh_hid_receive_report 1 0]) :=
  ((C5_short_buffer_dropped (guitarSession []) sampleGamepad 1 0 (exampleFrame.take 26)).2
    (by decide)).1

/-- C6, refuted as stated: in a session whose stored previous frame already
is the worked example, the first of two deliveries of that frame is itself
suppressed, so the two deliveries write no snapshot at all. -/
theorem C6_first_delivery_suppressed :
    (guitarSession exampleFrame).process_report sampleGamepad 1 0 exampleFrame
      = (guitarSession exampleFrame, [Event.tuh_hid_receive_report 1 0]) ∧
    emitted
      (((guitarSession exampleFrame).process_report sampleGamepad 1 0 exampleFrame).2 ++
       ((((guitarSession exampleFrame).process_report sampleGamepad 1 0 exampleFrame).1).process_report
          sampleGamepad 1 0 exampleFrame).2) = [] := by
  decide

/-- C6, amended: for every session state and every accepted buffer (27 bytes
or more past the Report ID), the first call stores the canonical 27-byte
frame, and writes one snapshot when that frame differs from the one stored
before; the second call with the same buffer, or with any accepted buffer
that carries the same canonical frame (with or without a Report ID), writes
nothing, leaves the state as the first call left it and only re-arms the
read.  The two calls together write at most one snapshot. -/
theorem C6_repeat_suppressed (self : PS3GuitarHost) (gamepad : Gamepad) (address inst : Nat)
    (report : List Byte) (hacc : 27 ≤ PS3GuitarHost.report_len report) :
    (self.process_report gamepad address inst report).1.prev_in_report_
      = (PS3GuitarHost.report_data report).take 27 ∧
    (self.prev_in_report_ ≠ (PS3GuitarHost.report_data report).take 27 →
      ∃ s : PadIn, (self.process_report gamepad address inst report).2
        = [Event.set_pad_in s, Event.tuh_hid_receive_report address inst]) ∧
    (∀ repeated : List Byte, 27 ≤ PS3GuitarHost.report_len repeated →
      (PS3GuitarHost.report_data repeated).take 27 = (PS3GuitarHost.report_data report).take 27 →
      (self.process_report gamepad address inst report).1.process_report gamepad address inst
          repeated
        = ((self.process_report gamepad address inst report).1,
            [Event.tuh_hid_receive_report address inst])) ∧
    (emitted (self.process_report gamepad address inst report).2).length +
      (emitted ((self.process_report gamepad address inst report).1.process_report gamepad
        address inst report).2).length ≤ 1 := by
  have hstored := PS3GuitarHost.process_report_stored self gamepad address inst report hacc
  have hrep : ∀ repeated : List Byte, 27 ≤ PS3GuitarHost.report_len repeated →
      (PS3GuitarHost.report_data repeated).take 27 = (PS3GuitarHost.report_data report).take 27 →
      (self.process_report gamepad address inst report).1.process_report gamepad address inst
          repeated
        = ((self.process_report gamepad address inst report).1,
            [Event.tuh_hid_receive_report address inst]) := by
    intro repeated hr hsame
    exact PS3GuitarHost.process_report_duplicate _ gamepad address inst repeated hr
      (hstored.trans hsame.symm)
  refine ⟨hstored, ?_, hrep, ?_⟩
  · intro hnew
    exact ⟨_, (PS3GuitarHost.process_report_changed self gamepad address inst report hacc hnew).2⟩
  · rw [hrep report hacc rfl]
    by_cases hdup : self.prev_in_report_ = (PS3GuitarHost.report_data report).take 27
    · rw [PS3GuitarHost.process_report_duplicate self gamepad address inst report hacc hdup]
      simp [emitted]
    · rw [(PS3GuitarHost.process_report_changed self gamepad address inst report hacc hdup).2]
      simp [emitted]

/-- C6 amended, at the worked example delivered to a fresh session and then
repeated behind a Report ID of 0x01. -/
theorem C6_repeat_suppressed_witness :
    (∃ s : PadIn, ((guitarSession []).process_report sampleGamepad 1 0 exampleFrame).2
        = [Event.set_pad_in s, Event.tuh_hid_receive_report 1 0]) ∧
    ((guitarSession []).process_report sampleGamepad 1 0 exampleFrame).1.process_report
        sampleGamepad 1 0 (0x01 :: exampleFrame)
      = (((guitarSession []).process_report sampleGamepad 1 0 exampleFrame).1,
          [Event.tuh_hid_receive_report 1 0]) :=
  have h := C6_repeat_suppressed (guitarSession []) sampleGamepad 1 0 exampleFrame (by decide)
  ⟨h.2.1 (by decide), h.2.2.1 (0x01 :: exampleFrame) (by decide) (by decide)⟩

/-! ## The generic driver -/

namespace HIDHost

theorem applyIf_trigger_l (c : Prop) [Decidable c] (m : Nat) (p : PadIn) :
    applyIf c (fun p => { p with trigger_l := m }) p
      = { p with trigger_l := if c then m else p.trigger_l } := by
  unfold applyIf; split <;> rfl

theorem applyIf_trigger_r (c : Prop) [Decidable c] (m : Nat) (p : PadIn) :
    applyIf c (fun p => { p with trigger_r := m }) p
      = { p with trigger_r := if c then m else p.trigger_r } := by
  unfold applyIf; split <;> rfl

theorem gp_in_accel_fields (report : List Byte) (p : PadIn) :
    (gp_in_accel report p).buttons = p.buttons ∧ (gp_in_accel report p).trigger_l = p.trigger_l ∧
    (gp_in_accel report p).trigger_r = p.trigger_r ∧ (gp_in_accel report p).dpad = p.dpad := by
  by_cases h : report.length ≥ 43 <;> simp [gp_in_accel, h]

theorem gp_in_hat_switch_fields (g : Gamepad) (d : HIDJoystickData) (p : PadIn) :
    (gp_in_hat_switch g d p).buttons = p.buttons ∧
    (gp_in_hat_switch g d p).trigger_l = p.trigger_l ∧
    (gp_in_hat_switch g d p).trigger_r = p.trigger_r := by
  unfold gp_in_hat_switch; split <;> simp

/-- The face-button block adds to the button mask the masks its table
selects. -/
theorem gp_in_face_buttons_eq (g : Gamepad) (len : Nat) (d : HIDJoystickData) (p : PadIn) :
    gp_in_face_buttons g len d p =
      { p with buttons :=
          if len = SWAPPED_DESC_LEN then
            p.buttons ||| sel (d.buttons 1) g.MAP_BUTTON_Y ||| sel (d.buttons 2) g.MAP_BUTTON_B |||
              sel (d.buttons 3) g.MAP_BUTTON_A ||| sel (d.buttons 4) g.MAP_BUTTON_X
          else
            p.buttons ||| sel (d.buttons 1) g.MAP_BUTTON_X ||| sel (d.buttons 2) g.MAP_BUTTON_A |||
              sel (d.buttons 3) g.MAP_BUTTON_B ||| sel (d.buttons 4) g.MAP_BUTTON_Y } := by
  unfold gp_in_face_buttons
  split <;> simp only [applyIf_buttons_or]

/-- The block of buttons 5 to 14 adds their masks to the button mask and
sets the two triggers. -/
theorem gp_in_buttons_eq (g : Gamepad) (d : HIDJoystickData) (p : PadIn) :
    gp_in_buttons g d p =
      { p with
        buttons := p.buttons ||| sel (d.buttons 5) g.MAP_BUTTON_LB |||
          sel (d.buttons 6) g.MAP_BUTTON_RB ||| sel (d.buttons 9) g.MAP_BUTTON_BACK |||
          sel (d.buttons 10) g.MAP_BUTTON_START ||| sel (d.buttons 11) g.MAP_BUTTON_L3 |||
          sel (d.buttons 12) g.MAP_BUTTON_R3 ||| sel (d.buttons 13) g.MAP_BUTTON_SYS |||
          sel (d.buttons 14) g.MAP_BUTTON_MISC
        trigger_l := if d.buttons 7 then Range_MAX_uint8 else p.trigger_l
        trigger_r := if d.buttons 8 then Range_MAX_uint8 else p.trigger_r } := by
  simp only [gp_in_buttons, applyIf_buttons_or, applyIf_trigger_l, applyIf_trigger_r]

/-- The button mask of the snapshot the generic driver builds. -/
theorem gp_in_buttons_field (g : Gamepad) (len : Nat) (d : HIDJoystickData)
    (report : List Byte) :
    (gp_in g len d report).buttons =
      (if len = SWAPPED_DESC_LEN then
          sel (d.buttons 1) g.MAP_BUTTON_Y ||| sel (d.buttons 2) g.MAP_BUTTON_B |||
            sel (d.buttons 3) g.MAP_BUTTON_A ||| sel (d.buttons 4) g.MAP_BUTTON_X
        else
          sel (d.buttons 1) g.MAP_BUTTON_X ||| sel (d.buttons 2) g.MAP_BUTTON_A |||
            sel (d.buttons 3) g.MAP_BUTTON_B ||| sel (d.buttons 4) g.MAP_BUTTON_Y) |||
        sel (d.buttons 5) g.MAP_BUTTON_LB ||| sel (d.buttons 6) g.MAP_BUTTON_RB |||
        sel (d.buttons 9) g.MAP_BUTTON_BACK ||| sel (d.buttons 10) g.MAP_BUTTON_START |||
        sel (d.buttons 11) g.MAP_BUTTON_L3 ||| sel (d.buttons 12) g.MAP_BUTTON_R3 |||
        sel (d.buttons 13) g.MAP_BUTTON_SYS ||| sel (d.buttons 14) g.MAP_BUTTON_MISC := by
  unfold gp_in
  simp only [(gp_in_accel_fields _ _).1, gp_in_buttons_eq, gp_in_face_buttons_eq,
    gp_in_joysticks, (gp_in_hat_switch_fields _ _ _).1]
  split <;> simp only [Nat.zero_or]

/-- The two trigger values of the snapshot the generic driver builds. -/
theorem gp_in_triggers (g : Gamepad) (len : Nat) (d : HIDJoystickData) (report : List Byte) :
    (gp_in g len d report).trigger_l = (if d.buttons 7 then Range_MAX_uint8 else 0) ∧
    (gp_in g len d report).trigger_r = (if d.buttons 8 then Range_MAX_uint8 else 0) := by
  unfold gp_in
  simp only [(gp_in_accel_fields _ _).2.1, (gp_in_accel_fields _ _).2.2.1, gp_in_buttons_eq,
    gp_in_face_buttons_eq, gp_in_joysticks, (gp_in_hat_switch_fields _ _ _).2.1,
    (gp_in_hat_switch_fields _ _ _).2.2, and_self]

/-- The comparison with the stored report covers the bytes of the incoming
buffer and nothing more. -/
theorem memcmp_report (prev report : List Byte) :
    memcmp_eq prev report report.length = true ↔ prev.take report.length = report := by
  simp [memcmp_eq]

theorem generic_overrun {J : Type}
    (parseData : J → List Byte → HIDJoystickData → Bool × J × HIDJoystickData)
    (self : HIDHost J) (g : Gamepad) (a i : Nat) (report : List Byte)
    (h : self.prev_report_in_.length < report.length) :
    process_report parseData self g a i report = Except.error Fault.buffer_overrun := by
  simp [process_report, h]

theorem generic_duplicate {J : Type}
    (parseData : J → List Byte → HIDJoystickData → Bool × J × HIDJoystickData)
    (self : HIDHost J) (g : Gamepad) (a i : Nat) (report : List Byte)
    (hcap : report.length ≤ self.prev_report_in_.length)
    (hdup : self.prev_report_in_.take report.length = report) :
    process_report parseData self g a i report
      = Except.ok (self, [Event.tuh_hid_receive_report a i]) := by
  have hm := (memcmp_report self.prev_report_in_ report).2 hdup
  simp [process_report, Nat.not_lt.2 hcap, hm]

theorem generic_changed {J : Type}
    (parseData : J → List Byte → HIDJoystickData → Bool × J × HIDJoystickData)
    (self : HIDHost J) (g : Gamepad) (a i : Nat) (report : List Byte) (j : J)
    (hj : self.hid_joystick_ = some j)
    (hcap : report.length ≤ self.prev_report_in_.length)
    (hnew : self.prev_report_in_.take report.length ≠ report) :
    process_report parseData self g a i report
      = Except.ok (decoded parseData self j report,
          if (parseData j report self.hid_joystick_data_).1 = false then
            [Event.tuh_hid_receive_report a i]
          else
            [Event.set_pad_in (gp_in g self.report_desc_len_
              (parseData j report self.hid_joystick_data_).2.2 report),
             Event.tuh_hid_receive_report a i]) := by
  have hm : memcmp_eq self.prev_report_in_ report report.length = false := by
    rw [← Bool.not_eq_true, memcmp_report]; exact hnew
  by_cases hp : (parseData j report self.hid_joystick_data_).1 = false <;>
    simp [process_report, Nat.not_lt.2 hcap, hm, hj, decoded, hp]

theorem generic_null {J : Type}
    (parseData : J → List Byte → HIDJoystickData → Bool × J × HIDJoystickData)
    (self : HIDHost J) (g : Gamepad) (a i : Nat) (report : List Byte)
    (hj : self.hid_joystick_ = none)
    (hcap : report.length ≤ self.prev_report_in_.length)
    (hnew : self.prev_report_in_.take report.length ≠ report) :
    process_report parseData self g a i report = Except.error Fault.null_dereference := by
  have hm : memcmp_eq self.prev_report_in_ report report.length = false := by
    rw [← Bool.not_eq_true, memcmp_report]; exact hnew
  simp [process_report, Nat.not_lt.2 hcap, hm, hj]

end HIDHost

/-- C7, refuted as stated: after the 3-byte report 1, 2, 3 has been decoded
and stored, its strict prefix 1, 2 and the zero-length report are both
suppressed as duplicates (only the read is re-armed), although their lengths
differ from that of the stored report; delivered to a fresh session the
prefix 1, 2 is decoded. -/
theorem C7_shorter_report_suppressed :
    deliver sampleParseData (sampleHIDHost 0 []) sampleGamepad 1 0 [[1, 2, 3], [1, 2], []]
      = some [[Event.set_pad_in { buttons := 0x40 }, Event.tuh_hid_receive_report 1 0],
              [Event.tuh_hid_receive_report 1 0],
              [Event.tuh_hid_receive_report 1 0]] ∧
    deliver sampleParseData (sampleHIDHost 0 []) sampleGamepad 1 0 [[1, 2]]
      = some [[Event.set_pad_in { buttons := 0x40 }, Event.tuh_hid_receive_report 1 0]] := by
  decide

/-- C7, amended: with the extractor in place and a buffer that fits the
stored report array, `HIDHost::process_report` suppresses the buffer as a
duplicate exactly when its `len` bytes equal the first `len` bytes of the
stored array: then the state is unchanged and only the read is re-armed.
No length of the stored report is kept, so a zero-length buffer is always
suppressed.  A buffer that differs from the stored bytes within its `len`
bytes is copied over them and passed to the extractor, whose answer decides
between re-arming alone and writing the snapshot. -/
theorem C7_duplicate_by_leading_bytes {J : Type}
    (parseData : J → List Byte → HIDJoystickData → Bool × J × HIDJoystickData)
    (self : HIDHost J) (gamepad : Gamepad) (address inst : Nat) (report : List Byte) (j : J)
    (hj : self.hid_joystick_ = some j)
    (hcap : report.length ≤ self.prev_report_in_.length) :
    (self.prev_report_in_.take report.length = report →
      HIDHost.process_report parseData self gamepad address inst report
        = Except.ok (self, [Event.tuh_hid_receive_report address inst])) ∧
    (report = [] →
      HIDHost.process_report parseData self gamepad address inst report
        = Except.ok (self, [Event.tuh_hid_receive_report address inst])) ∧
    (self.prev_report_in_.take report.length ≠ report →
      ∃ self' : HIDHost J, ∃ tr : List Event,
        HIDHost.process_report parseData self gamepad address inst report = Except.ok (self', tr) ∧
        self'.prev_report_in_ = report ++ self.prev_report_in_.drop report.length ∧
        self'.hid_joystick_data_ = (parseData j report self.hid_joystick_data_).2.2 ∧
        tr = if (parseData j report self.hid_joystick_data_).1 = false then
            [Event.tuh_hid_receive_report address inst]
          else
            [Event.set_pad_in (HIDHost.gp_in gamepad self.report_desc_len_
              (parseData j report self.hid_joystick_data_).2.2 report),
             Event.tuh_hid_receive_report address inst]) := by
  refine ⟨fun hdup => HIDHost.generic_duplicate parseData self gamepad address inst
      report hcap hdup, ?_, fun hnew => ?_⟩
  · rintro rfl
    exact HIDHost.generic_duplicate parseData self gamepad address inst [] hcap rfl
  · refine ⟨_, _, HIDHost.generic_changed parseData self gamepad address inst report j
      hj hcap hnew, ?_, rfl, rfl⟩
    simp [HIDHost.decoded, memcpy]

/-- C7 amended, at the sample session holding 1, 2, 3: the prefix 1, 2 is
suppressed, and the report 1, 3 is copied and decoded. -/
theorem C7_duplicate_by_leading_bytes_witness :
    HIDHost.process_report sampleParseData (sampleHIDHost 0 [1, 2, 3]) sampleGamepad 1 0 [1, 2]
      = Except.ok (sampleHIDHost 0 [1, 2, 3], [Event.tuh_hid_receive_report 1 0]) ∧
    ∃ self' : HIDHost Unit, ∃ tr : List Event,
      HIDHost.process_report sampleParseData (sampleHIDHost 0 [1, 2, 3]) sampleGamepad 1 0 [1, 3]
        = Except.ok (self', tr) ∧
      self'.prev_report_in_ = [1, 3, 3, 0, 0, 0, 0, 0] :=
  ⟨(C7_duplicate_by_leading_bytes sampleParseData (sampleHIDHost 0 [1, 2, 3]) sampleGamepad 1 0
      [1, 2] () rfl (by decide)).1 (by decide),
   by
    obtain ⟨self', tr, h, hp, -, -⟩ :=
      (C7_duplicate_by_leading_bytes sampleParseData (sampleHIDHost 0 [1, 2, 3]) sampleGamepad
        1 0 [1, 3] () rfl (by decide)).2.2 (by decide)
    exact ⟨self', tr, h, by rw [hp]; decide⟩⟩

namespace HIDHost

/-- The generic driver builds the same snapshot under the swapped table as
under the standard table of the mapping with X and Y, and A and B,
exchanged. -/
theorem gp_in_swapFace (g : Gamepad) (len : Nat) (hlen : len ≠ SWAPPED_DESC_LEN)
    (d : HIDJoystickData) (report : List Byte) :
    gp_in g.swapFace len d report = gp_in g SWAPPED_DESC_LEN d report := by
  unfold gp_in
  have hface : ∀ p : PadIn, gp_in_face_buttons g.swapFace len d p
      = gp_in_face_buttons g SWAPPED_DESC_LEN d p := by
    intro p
    simp [gp_in_face_buttons, hlen, Gamepad.swapFace]
  simp only [hface]
  rfl

/-- A snapshot does not depend on `buttons[0]` of the extraction. -/
theorem gp_in_agree (g : Gamepad) (len : Nat) (d e : HIDJoystickData) (report : List Byte)
    (h : d.agreeExceptButton0 e) : gp_in g len d report = gp_in g len e report := by
  obtain ⟨hx, hy, hz, hrz, hhat, hb⟩ := h
  simp only [gp_in, gp_in_hat_switch, gp_in_joysticks, gp_in_face_buttons, gp_in_buttons,
    hx, hy, hz, hrz, hhat, hb 1 (by decide), hb 2 (by decide), hb 3 (by decide),
    hb 4 (by decide), hb 5 (by decide), hb 6 (by decide), hb 7 (by decide), hb 8 (by decide),
    hb 9 (by decide), hb 10 (by decide), hb 11 (by decide), hb 12 (by decide),
    hb 13 (by decide), hb 14 (by decide)]

end HIDHost

/-- C8: when the extraction succeeds, the face buttons of the emitted snapshot
are chosen by the stored descriptor length alone.  Under a mapping with
distinct flags: if the length is 176, Y is set iff `buttons[1]`, B iff
`buttons[2]`, A iff `buttons[3]`, X iff `buttons[4]`; for every other length
X iff `buttons[1]`, A iff `buttons[2]`, B iff `buttons[3]`, Y iff
`buttons[4]`.  The two tables differ by the exchange of X with Y and of A
with B: the calls made under length 176 are those made under any other
length with the mapping so exchanged. -/
theorem C8_face_button_tables {J : Type}
    (parseData : J → List Byte → HIDJoystickData → Bool × J × HIDJoystickData)
    (self : HIDHost J) (gamepad : Gamepad) (address inst : Nat) (report : List Byte) (j : J)
    (hj : self.hid_joystick_ = some j)
    (hcap : report.length ≤ self.prev_report_in_.length)
    (hnew : self.prev_report_in_.take report.length ≠ report)
    (hok : (parseData j report self.hid_joystick_data_).1 = true)
    (hg : gamepad.distinctFlags) :
    ∃ self' : HIDHost J, ∃ s : PadIn,
      HIDHost.process_report parseData self gamepad address inst report
        = Except.ok (self', [Event.set_pad_in s, Event.tuh_hid_receive_report address inst]) ∧
      (self.report_desc_len_ = 176 →
        (flagSet s.buttons gamepad.MAP_BUTTON_Y ↔ self'.hid_joystick_data_.buttons 1 = true) ∧
        (flagSet s.buttons gamepad.MAP_BUTTON_B ↔ self'.hid_joystick_data_.buttons 2 = true) ∧
        (flagSet s.buttons gamepad.MAP_BUTTON_A ↔ self'.hid_joystick_data_.buttons 3 = true) ∧
        (flagSet s.buttons gamepad.MAP_BUTTON_X ↔ self'.hid_joystick_data_.buttons 4 = true)) ∧
      (self.report_desc_len_ ≠ 176 →
        (flagSet s.buttons gamepad.MAP_BUTTON_X ↔ self'.hid_joystick_data_.buttons 1 = true) ∧
        (flagSet s.buttons gamepad.MAP_BUTTON_A ↔ self'.hid_joystick_data_.buttons 2 = true) ∧
        (flagSet s.buttons gamepad.MAP_BUTTON_B ↔ self'.hid_joystick_data_.buttons 3 = true) ∧
        (flagSet s.buttons gamepad.MAP_BUTTON_Y ↔ self'.hid_joystick_data_.buttons 4 = true)) ∧
      (self'.hid_joystick_data_ = (parseData j report self.hid_joystick_data_).2.2) ∧
      (self.report_desc_len_ = 176 → ∀ len : Nat, len ≠ 176 →
        calls (HIDHost.process_report parseData { self with report_desc_len_ := len }
          gamepad.swapFace address inst report)
        = calls (HIDHost.process_report parseData self gamepad address inst report)) := by
  have hrun := HIDHost.generic_changed parseData self gamepad address inst report j
    hj hcap hnew
  simp only [hok, Bool.true_eq_false, if_false] at hrun
  refine ⟨_, _, hrun, ?_, ?_, rfl, ?_⟩
  · intro h176
    have hflags := hg.unfold
    simp only [Gamepad.buttonMasks, Gamepad.dpadMasks, List.pairwise_cons, List.mem_cons,
      List.mem_singleton, forall_eq_or_imp, forall_eq, List.not_mem_nil, false_implies,
      implies_true, List.Pairwise.nil, and_true] at hflags
    obtain ⟨hself, hpair, -, -⟩ := hflags
    simp only [HIDHost.gp_in_buttons_field, HIDHost.decoded, h176, SWAPPED_DESC_LEN, if_true,
      flagSet_or, flagSet_sel, hself, hpair, and_true, and_false, or_false, false_or,
      and_self]
  · intro h176
    have hflags := hg.unfold
    simp only [Gamepad.buttonMasks, Gamepad.dpadMasks, List.pairwise_cons, List.mem_cons,
      List.mem_singleton, forall_eq_or_imp, forall_eq, List.not_mem_nil, false_implies,
      implies_true, List.Pairwise.nil, and_true] at hflags
    obtain ⟨hself, hpair, -, -⟩ := hflags
    simp only [HIDHost.gp_in_buttons_field, HIDHost.decoded, h176, SWAPPED_DESC_LEN, if_false,
      flagSet_or, flagSet_sel, hself, hpair, and_true, and_false, or_false, false_or,
      and_self]
  · intro h176 len hlen
    have hrun' := HIDHost.generic_changed parseData { self with report_desc_len_ := len }
      gamepad.swapFace address inst report j hj hcap hnew
    simp only [hok, Bool.true_eq_false, if_false] at hrun'
    rw [hrun, hrun', h176]
    simp only [calls]
    rw [HIDHost.gp_in_swapFace gamepad len hlen]
    rfl

/-- C8, at the sample extractor with `buttons[1]` alone set (report 2, 0):
under length 176 the snapshot has Y, under length 175 it has X, and the
calls under 176 are those under 175 with the exchanged mapping. -/
theorem C8_face_button_tables_witness :
    (∃ self' : HIDHost Unit, ∃ s : PadIn,
      HIDHost.process_report sampleParseData (sampleHIDHost 176 []) sampleGamepad 1 0 [2, 0]
        = Except.ok (self', [Event.set_pad_in s, Event.tuh_hid_receive_report 1 0]) ∧
      flagSet s.buttons sampleGamepad.MAP_BUTTON_Y) ∧
    (∃ self' : HIDHost Unit, ∃ s : PadIn,
      HIDHost.process_report sampleParseData (sampleHIDHost 175 []) sampleGamepad 1 0 [2, 0]
        = Except.ok (self', [Event.set_pad_in s, Event.tuh_hid_receive_report 1 0]) ∧
      flagSet s.buttons sampleGamepad.MAP_BUTTON_X) ∧
    calls (HIDHost.process_report sampleParseData (sampleHIDHost 175 [])
        sampleGamepad.swapFace 1 0 [2, 0])
      = calls (HIDHost.process_report sampleParseData (sampleHIDHost 176 [])
        sampleGamepad 1 0 [2, 0]) := by
  refine ⟨?_, ?_, ?_⟩
  · obtain ⟨self', s, h, h176, -, hd, -⟩ :=
      C8_face_button_tables sampleParseData (sampleHIDHost 176 []) sampleGamepad 1 0 [2, 0] ()
        rfl (by decide) (by decide) (by decide) (by decide)
    exact ⟨self', s, h, (h176 rfl).1.2 (by rw [hd]; decide)⟩
  · obtain ⟨self', s, h, -, hstd, hd, -⟩ :=
      C8_face_button_tables sampleParseData (sampleHIDHost 175 []) sampleGamepad 1 0 [2, 0] ()
        rfl (by decide) (by decide) (by decide) (by decide)
    exact ⟨self', s, h, (hstd (by decide)).1.2 (by rw [hd]; decide)⟩
  · obtain ⟨-, -, -, -, -, -, hswap⟩ :=
      C8_face_button_tables sampleParseData (sampleHIDHost 176 []) sampleGamepad 1 0 [2, 0] ()
        rfl (by decide) (by decide) (by decide) (by decide)
    exact hswap rfl 175 (by decide)

/-- C9: both drivers re-arm the next report read exactly once per call, as
the last thing they do, and write at most one snapshot.  The guitar driver
writes none for a short frame or a duplicate, and one otherwise.  The
generic driver, with its extractor in place and a buffer that fits the
stored report array, returns, and writes none for a duplicate or a failed
extraction, and one otherwise. -/
theorem C9_rearm_once_per_call :
    (∀ (self : PS3GuitarHost) (gamepad : Gamepad) (address inst : Nat) (report : List Byte),
      rearms (self.process_report gamepad address inst report).2 = 1 ∧
      (self.process_report gamepad address inst report).2.getLast?
        = some (Event.tuh_hid_receive_report address inst) ∧
      (emitted (self.process_report gamepad address inst report).2).length ≤ 1 ∧
      (PS3GuitarHost.report_len report < 27 →
        emitted (self.process_report gamepad address inst report).2 = []) ∧
      (27 ≤ PS3GuitarHost.report_len report →
        self.prev_in_report_ = (PS3GuitarHost.report_data report).take 27 →
        emitted (self.process_report gamepad address inst report).2 = []) ∧
      (27 ≤ PS3GuitarHost.report_len report →
        self.prev_in_report_ ≠ (PS3GuitarHost.report_data report).take 27 →
        (emitted (self.process_report gamepad address inst report).2).length = 1)) ∧
    (∀ (J : Type) (parseData : J → List Byte → HIDJoystickData → Bool × J × HIDJoystickData)
      (self : HIDHost J) (gamepad : Gamepad) (address inst : Nat) (report : List Byte) (j : J),
      self.hid_joystick_ = some j →
      report.length ≤ self.prev_report_in_.length →
      ∃ out : HIDHost J × List Event,
        HIDHost.process_report parseData self gamepad address inst report = Except.ok out ∧
        rearms out.2 = 1 ∧
        out.2.getLast? = some (Event.tuh_hid_receive_report address inst) ∧
        (emitted out.2).length ≤ 1 ∧
        (self.prev_report_in_.take report.length = report → emitted out.2 = []) ∧
        (self.prev_report_in_.take report.length ≠ report →
          (parseData j report self.hid_joystick_data_).1 = false → emitted out.2 = []) ∧
        (self.prev_report_in_.take report.length ≠ report →
          (parseData j report self.hid_joystick_data_).1 = true →
          (emitted out.2).length = 1)) := by
  constructor
  · intro self gamepad address inst report
    by_cases hs : PS3GuitarHost.report_len report < 27
    · rw [PS3GuitarHost.process_report_short self gamepad address inst report hs]
      simp [rearms, emitted]
      omega
    · have hacc : 27 ≤ PS3GuitarHost.report_len report := Nat.not_lt.1 hs
      by_cases hdup : self.prev_in_report_ = (PS3GuitarHost.report_data report).take 27
      · rw [PS3GuitarHost.process_report_duplicate self gamepad address inst report hacc hdup]
        simp [rearms, emitted, hdup]
      · rw [(PS3GuitarHost.process_report_changed self gamepad address inst report hacc
          hdup).2]
        simp [rearms, emitted, hdup]
        omega
  · intro J parseData self gamepad address inst report j hj hcap
    by_cases hdup : self.prev_report_in_.take report.length = report
    · refine ⟨_, HIDHost.generic_duplicate parseData self gamepad address inst report
        hcap hdup, ?_⟩
      simp [rearms, emitted, hdup]
    · refine ⟨_, HIDHost.generic_changed parseData self gamepad address inst report j
        hj hcap hdup, ?_⟩
      by_cases hp : (parseData j report self.hid_joystick_data_).1 = false
      · simp [rearms, emitted, hdup, hp]
      · simp [rearms, emitted, hdup, hp]

/-- C9, at the sample generic session: a fresh report is decoded with one
snapshot and one re-arm. -/
theorem C9_rearm_once_per_call_witness :
    ∃ out : HIDHost Unit × List Event,
      HIDHost.process_report sampleParseData (sampleHIDHost 0 []) sampleGamepad 1 0 [2, 0]
        = Except.ok out ∧
      rearms out.2 = 1 ∧ (emitted out.2).length = 1 := by
  obtain ⟨out, h, hr, -, -, -, -, hone⟩ :=
    C9_rearm_once_per_call.2 Unit sampleParseData (sampleHIDHost 0 []) sampleGamepad 1 0 [2, 0]
      () rfl (by decide)
  exact ⟨out, h, hr, hone (by decide) (by decide)⟩

/-- C10: when the extraction succeeds and the mapping has distinct flags,
`buttons[5]` to `buttons[14]` of the extraction set, one each and by nothing
else, left shoulder, right shoulder, left trigger (255, else 0), right
trigger (255, else 0), back, start, L3, R3, system and misc; and
`buttons[0]` has no effect: an extractor whose successful answer differs
only in `buttons[0]` leads to the same calls, with an equal snapshot. -/
theorem C10_button_table {J : Type}
    (parseData : J → List Byte → HIDJoystickData → Bool × J × HIDJoystickData)
    (self : HIDHost J) (gamepad : Gamepad) (address inst : Nat) (report : List Byte) (j : J)
    (hj : self.hid_joystick_ = some j)
    (hcap : report.length ≤ self.prev_report_in_.length)
    (hnew : self.prev_report_in_.take report.length ≠ report)
    (hok : (parseData j report self.hid_joystick_data_).1 = true)
    (hg : gamepad.distinctFlags) :
    ∃ self' : HIDHost J, ∃ s : PadIn,
      HIDHost.process_report parseData self gamepad address inst report
        = Except.ok (self', [Event.set_pad_in s, Event.tuh_hid_receive_report address inst]) ∧
      self'.hid_joystick_data_ = (parseData j report self.hid_joystick_data_).2.2 ∧
      (flagSet s.buttons gamepad.MAP_BUTTON_LB ↔ self'.hid_joystick_data_.buttons 5 = true) ∧
      (flagSet s.buttons gamepad.MAP_BUTTON_RB ↔ self'.hid_joystick_data_.buttons 6 = true) ∧
      (s.trigger_l = if self'.hid_joystick_data_.buttons 7 = true then 255 else 0) ∧
      (s.trigger_r = if self'.hid_joystick_data_.buttons 8 = true then 255 else 0) ∧
      (flagSet s.buttons gamepad.MAP_BUTTON_BACK ↔ self'.hid_joystick_data_.buttons 9 = true) ∧
      (flagSet s.buttons gamepad.MAP_BUTTON_START ↔ self'.hid_joystick_data_.buttons 10 = true) ∧
      (flagSet s.buttons gamepad.MAP_BUTTON_L3 ↔ self'.hid_joystick_data_.buttons 11 = true) ∧
      (flagSet s.buttons gamepad.MAP_BUTTON_R3 ↔ self'.hid_joystick_data_.buttons 12 = true) ∧
      (flagSet s.buttons gamepad.MAP_BUTTON_SYS ↔ self'.hid_joystick_data_.buttons 13 = true) ∧
      (flagSet s.buttons gamepad.MAP_BUTTON_MISC ↔ self'.hid_joystick_data_.buttons 14 = true) ∧
      (∀ parseData' : J → List Byte → HIDJoystickData → Bool × J × HIDJoystickData,
        (parseData' j report self.hid_joystick_data_).1 = true →
        (parseData j report self.hid_joystick_data_).2.2.agreeExceptButton0
          (parseData' j report self.hid_joystick_data_).2.2 →
        calls (HIDHost.process_report parseData' self gamepad address inst report)
          = calls (HIDHost.process_report parseData self gamepad address inst report)) := by
  have hrun := HIDHost.generic_changed parseData self gamepad address inst report j
    hj hcap hnew
  simp only [hok, Bool.true_eq_false, if_false] at hrun
  have hflags := hg.unfold
  simp only [Gamepad.buttonMasks, Gamepad.dpadMasks, List.pairwise_cons, List.mem_cons,
    List.mem_singleton, forall_eq_or_imp, forall_eq, List.not_mem_nil, false_implies,
    implies_true, List.Pairwise.nil, and_true] at hflags
  obtain ⟨hself, hpair, -, -⟩ := hflags
  refine ⟨_, _, hrun, rfl, ?_, ?_, ?_, ?_, ?_, ?_, ?_, ?_, ?_, ?_, ?_⟩
  case refine_3 => exact (HIDHost.gp_in_triggers _ _ _ _).1
  case refine_4 => exact (HIDHost.gp_in_triggers _ _ _ _).2
  case refine_11 =>
    intro parseData' hok' hagree
    have hrun' := HIDHost.generic_changed parseData' self gamepad address inst report j
      hj hcap hnew
    simp only [hok', Bool.true_eq_false, if_false] at hrun'
    rw [hrun, hrun']
    simp only [calls]
    rw [HIDHost.gp_in_agree gamepad _ _ _ report hagree]
  all_goals
    by_cases h176 : self.report_desc_len_ = SWAPPED_DESC_LEN <;>
    simp only [HIDHost.gp_in_buttons_field, HIDHost.decoded, h176, if_true, if_false,
      flagSet_or, flagSet_sel, hself, hpair, and_true, and_false, or_false, false_or,
      and_self]

/-- C10, at the sample extractor with `buttons[0]`, `buttons[5]` and
`buttons[7]` set (report 0xA1, 0): left shoulder is set, the left trigger is
255, and the extractor that leaves `buttons[0]` out leads to the same
calls. -/
theorem C10_button_table_witness :
    (∃ self' : HIDHost Unit, ∃ s : PadIn,
      HIDHost.process_report sampleParseData (sampleHIDHost 0 []) sampleGamepad 1 0 [0xA1, 0]
        = Except.ok (self', [Event.set_pad_in s, Event.tuh_hid_receive_report 1 0]) ∧
      flagSet s.buttons sampleGamepad.MAP_BUTTON_LB ∧ s.trigger_l = 255) ∧
    calls (HIDHost.process_report sampleParseDataSkip0 (sampleHIDHost 0 []) sampleGamepad 1 0
        [0xA1, 0])
      = calls (HIDHost.process_report sampleParseData (sampleHIDHost 0 []) sampleGamepad 1 0
        [0xA1, 0]) := by
  obtain ⟨self', s, h, hd, hlb, -, htl, -, -, -, -, -, -, -, hbit0⟩ :=
    C10_button_table sampleParseData (sampleHIDHost 0 []) sampleGamepad 1 0 [0xA1, 0] ()
      rfl (by decide) (by decide) (by decide) (by decide)
  refine ⟨⟨self', s, h, hlb.2 (by rw [hd]; decide), ?_⟩, ?_⟩
  · rw [htl, hd]
    decide
  · refine hbit0 sampleParseDataSkip0 (by decide) ⟨rfl, rfl, rfl, rfl, rfl, ?_⟩
    intro i hi
    simp [sampleParseData, sampleParseDataSkip0, sampleHIDHost, hi]

namespace HIDHost

/-- The fixed-offset sample: bytes 41 and 42 as a big-endian 16-bit value,
shifted right by six bits. -/
theorem quirk_sample (b41 b42 : Byte) :
    toInt16 ((toUInt16 ((b41.val <<< 8) ||| b42.val) >>> 6 : Nat))
      = (((256 * b41.val + b42.val) / 64 : Nat) : Int) ∧
    (256 * b41.val + b42.val) / 64 ≤ 1023 := by
  have h41 : b41.val < 256 := b41.isLt
  have h42 : b42.val < 2 ^ 8 := b42.isLt
  have hor : (b41.val <<< 8) ||| b42.val = 256 * b41.val + b42.val := by
    rw [Nat.shiftLeft_eq, Nat.mul_comm, ← Nat.mul_add_lt_is_or h42]
  have hle : (256 * b41.val + b42.val) / 64 ≤ 1023 := by omega
  refine ⟨?_, hle⟩
  rw [hor]
  unfold toUInt16 toInt16
  rw [Nat.shiftRight_eq_div_pow, Nat.mod_eq_of_lt (by omega)]
  norm_num
  omega

/-- The tilt axis of the snapshot the generic driver builds. -/
theorem gp_in_accel_x (g : Gamepad) (len : Nat) (d : HIDJoystickData) (report : List Byte) :
    (gp_in g len d report).accel_x =
      if 43 ≤ report.length then
        toInt16 ((toUInt16 (((report.getD 41 0).val <<< 8) ||| (report.getD 42 0).val) >>> 6 : Nat))
      else 0 := by
  have hhat : ∀ p : PadIn, (gp_in_hat_switch g d p).accel_x = p.accel_x := by
    intro p; unfold gp_in_hat_switch; split <;> rfl
  have hface : ∀ p : PadIn, (gp_in_face_buttons g len d p).accel_x = p.accel_x := by
    intro p; rw [gp_in_face_buttons_eq]
  have hbut : ∀ p : PadIn, (gp_in_buttons g d p).accel_x = p.accel_x := by
    intro p; rw [gp_in_buttons_eq]
  unfold gp_in
  by_cases h : 43 ≤ report.length
  · simp [gp_in_accel, h]
  · simp only [gp_in_accel, ge_iff_le, h, if_false, hbut, hface, gp_in_joysticks, hhat]

end HIDHost

/-- C11: on the decode path of `HIDHost::process_report`, whatever the stored
descriptor and its length, a buffer of at least 43 bytes gives the tilt axis
floor((256*byte41 + byte42) / 64), which lies in 0..1023; a shorter buffer
leaves the tilt axis at its default, 0. -/
theorem C11_generic_tilt_quirk {J : Type}
    (parseData : J → List Byte → HIDJoystickData → Bool × J × HIDJoystickData)
    (self : HIDHost J) (gamepad : Gamepad) (address inst : Nat) (report : List Byte) (j : J)
    (hj : self.hid_joystick_ = some j)
    (hcap : report.length ≤ self.prev_report_in_.length)
    (hnew : self.prev_report_in_.take report.length ≠ report)
    (hok : (parseData j report self.hid_joystick_data_).1 = true) :
    ∃ self' : HIDHost J, ∃ s : PadIn,
      HIDHost.process_report parseData self gamepad address inst report
        = Except.ok (self', [Event.set_pad_in s, Event.tuh_hid_receive_report address inst]) ∧
      (43 ≤ report.length →
        s.accel_x = (((256 * (report.getD 41 0).val + (report.getD 42 0).val) / 64 : Nat) : Int) ∧
        0 ≤ s.accel_x ∧ s.accel_x ≤ 1023) ∧
      (report.length < 43 → s.accel_x = 0) := by
  have hrun := HIDHost.generic_changed parseData self gamepad address inst report j
    hj hcap hnew
  simp only [hok, Bool.true_eq_false, if_false] at hrun
  refine ⟨_, _, hrun, ?_, ?_⟩
  · intro h43
    obtain ⟨hval, hle⟩ := HIDHost.quirk_sample (report.getD 41 0) (report.getD 42 0)
    rw [HIDHost.gp_in_accel_x, if_pos h43, hval]
    refine ⟨rfl, Int.natCast_nonneg _, ?_⟩
    exact_mod_cast hle
  · intro h43
    rw [HIDHost.gp_in_accel_x, if_neg (Nat.not_le.2 h43)]

/-- C11, at a 43-byte report whose bytes 41 and 42 are 0x71, 0xC0: the tilt
axis is 0x71C0 / 64 = 455. -/
theorem C11_generic_tilt_quirk_witness :
    ∃ self' : HIDHost Unit, ∃ s : PadIn,
      HIDHost.process_report sampleParseData wideHIDHost sampleGamepad 1 0 quirkReport
        = Except.ok (self', [Event.set_pad_in s, Event.tuh_hid_receive_report 1 0]) ∧
      s.accel_x = 455 := by
  obtain ⟨self', s, h, h43, -⟩ :=
    C11_generic_tilt_quirk sampleParseData wideHIDHost sampleGamepad 1 0 quirkReport ()
      rfl (by decide) (by decide) (by decide)
  refine ⟨self', s, h, ?_⟩
  rw [(h43 (by decide)).1]
  decide

/-- C12: `HIDHost::initialize` called with a null descriptor or with a
descriptor of length 0 returns at once: the session state is what it was (a
session without descriptor length and without extractor stays so) and no
call is made, so no report read is issued. -/
theorem C12_initialize_aborts {J : Type} (make_joystick : List Byte → Nat → J)
    (self : HIDHost J) (address inst : Nat) (report_desc : Option (List Byte))
    (h : report_desc = none ∨ report_desc = some []) :
    HIDHost.initialize make_joystick self address inst report_desc = (self, []) ∧
    rearms ( HIDHost.initialize make_joystick self address inst report_desc).2 = 0 ∧
    (self.report_desc_len_ = 0 → self.hid_joystick_ = none →
      ( HIDHost.initialize make_joystick self address inst report_desc).1.report_desc_len_ = 0 ∧
      ( HIDHost.initialize make_joystick self address inst report_desc).1.hid_joystick_
        = none) := by
  have hrun : HIDHost.initialize make_joystick self address inst report_desc = (self, []) := by
    rcases h with rfl | rfl <;> simp [ HIDHost.initialize]
  rw [hrun]
  exact ⟨rfl, rfl, fun h1 h2 => ⟨h1, h2⟩⟩

/-- C12, at a fresh session and a descriptor of length 0. -/
theorem C12_initialize_aborts_witness :
    ( HIDHost.initialize (fun _ _ => ()) freshHIDHost 1 0 (some [])).2 = [] ∧
    ( HIDHost.initialize (fun _ _ => ()) freshHIDHost 1 0 (some [])).1.hid_joystick_ = none :=
  have h := C12_initialize_aborts (fun _ _ => ()) freshHIDHost 1 0 (some []) (Or.inr rfl)
  ⟨by rw [h.1], (h.2.2 rfl rfl).2⟩

namespace PS3V2Host

theorem completions_none (n : Nat) : completions n none = none := by
  induction n with
  | zero => rfl
  | succ n ih => simpa [completions, get_report_complete_cb] using ih

/-- The stage after `n` completions, by the value of the enumerators: one
step per completion, up to DONE. -/
theorem completions_stage (n : Nat) (st : InitState) :
    ∃ st' : InitState, completions n (some st) = some st' ∧
      st'.stage.toNat = min (st.stage.toNat + n) 4 := by
  induction n generalizing st with
  | zero =>
    refine ⟨st, rfl, ?_⟩
    cases h : st.stage <;> simp [InitStage.toNat]
  | succ n ih =>
    obtain ⟨st', h1, h2⟩ := ih { st with stage := st.stage.next }
    refine ⟨st', by simpa [completions, get_report_complete_cb] using h1, ?_⟩
    rw [h2]
    cases h : st.stage <;> simp [InitStage.next, InitStage.toNat] <;> omega

theorem toNat_eq_four (s : InitStage) : s.toNat = 4 ↔ s = InitStage.DONE := by
  cases s <;> simp [InitStage.toNat]

end PS3V2Host

/-- C13: the init state of the second-generation driver starts in RESP1
(PS3V2.h) and, by the completion callback as the spec describes it, moves
one stage per control-transfer completion in the order RESP1, RESP2, RESP3,
RESP4, DONE, never back: from RESP1 the stage is DONE after `n` completions
exactly when `n` is at least four; and a completion that arrives for a
discarded session finds nothing and changes nothing. -/
theorem C13_init_stages_linear (init_state : PS3V2Host.InitState)
    (hstart : init_state.stage = PS3V2Host.InitStage.RESP1) :
    (∀ buffer : List Byte,
      ({ init_buffer := buffer } : PS3V2Host.InitState).stage = PS3V2Host.InitStage.RESP1) ∧
    (∀ st : PS3V2Host.InitState, ∃ st' : PS3V2Host.InitState,
      PS3V2Host.get_report_complete_cb (some st) = some st' ∧
      st'.stage.toNat = min (st.stage.toNat + 1) 4 ∧ st.stage.toNat ≤ st'.stage.toNat) ∧
    (∀ n : Nat, ∃ st' : PS3V2Host.InitState,
      PS3V2Host.completions n (some init_state) = some st' ∧
      st'.stage.toNat = min n 4 ∧
      (st'.stage = PS3V2Host.InitStage.DONE ↔ 4 ≤ n)) ∧
    PS3V2Host.get_report_complete_cb none = none ∧
    (∀ n : Nat, PS3V2Host.completions n none = none) := by
  refine ⟨fun _ => rfl, ?_, ?_, rfl, PS3V2Host.completions_none⟩
  · intro st
    obtain ⟨st', h1, h2⟩ := PS3V2Host.completions_stage 1 st
    refine ⟨st', h1, h2, ?_⟩
    rw [h2]
    have : st.stage.toNat ≤ 4 := by cases h : st.stage <;> simp [PS3V2Host.InitStage.toNat]
    omega
  · intro n
    obtain ⟨st', h1, h2⟩ := PS3V2Host.completions_stage n init_state
    have h0 : init_state.stage.toNat = 0 := by rw [hstart]; rfl
    rw [h0, Nat.zero_add] at h2
    refine ⟨st', h1, h2, ?_⟩
    rw [← PS3V2Host.toNat_eq_four, h2]
    omega

/-- C13, at a default-initialised state: RESP4 after three completions, DONE
after four. -/
theorem C13_init_stages_linear_witness :
    (PS3V2Host.completions 3 (some { init_buffer := [] })).map PS3V2Host.InitState.stage
      = some PS3V2Host.InitStage.RESP4 ∧
    (PS3V2Host.completions 4 (some { init_buffer := [] })).map PS3V2Host.InitState.stage
      = some PS3V2Host.InitStage.DONE := by
  have h := (C13_init_stages_linear { init_buffer := [] } rfl).2.2.1
  refine ⟨by decide, ?_⟩
  obtain ⟨st', h1, -, h3⟩ := h 4
  rw [h1, Option.map_some', h3.2 (le_refl 4)]

namespace PS3GuitarHost

/-- The run of `process_report` on a 27-byte frame that differs from the
stored previous frame. -/
theorem process_report_frame (self : PS3GuitarHost) (g : Gamepad) (a i : Nat)
    (frame : List Byte) (hlen : frame.length = 27) (hnew : frame ≠ self.prev_in_report_) :
    (process_report self g a i frame).2
      = [Event.set_pad_in (gp_in g frame), Event.tuh_hid_receive_report a i] := by
  obtain ⟨hd, hl⟩ := report_data_frame frame hlen
  have hrun := (process_report_changed self g a i frame (by rw [hl])
    (by rw [hd, List.take_of_length_le (le_of_eq hlen)]; exact Ne.symm hnew)).2
  rw [hd] at hrun
  exact hrun

/-- The axis rescale does not wrap. -/
theorem rescale_exact (raw : Nat) (h : raw < 256) :
    toInt16 (((raw : Nat) - 128 : Int) * 256) = ((raw : Int) - 128) * 256 := by
  unfold toInt16
  omega

/-- The bytes `gp_in` reads lie within the first 27. -/
theorem getD_take (d : List Byte) (k : Nat) (hk : k < 27) :
    (d.take 27).getD k 0 = d.getD k 0 := by
  simp [List.getD_eq_getElem?_getD, List.getElem?_take, hk]

theorem gp_in_take (g : Gamepad) (d : List Byte) : gp_in g (d.take 27) = gp_in g d := by
  simp only [gp_in_eq, raw_accel_x, PS3Guitar.buttons0, PS3Guitar.buttons1, PS3Guitar.buttons2,
    PS3Guitar.joystick_lx, PS3Guitar.joystick_ly, PS3Guitar.joystick_rx,
    getD_take d 0 (by decide), getD_take d 1 (by decide), getD_take d 2 (by decide),
    getD_take d 3 (by decide), getD_take d 4 (by decide), getD_take d 5 (by decide),
    getD_take d 19 (by decide), getD_take d 20 (by decide)]

end PS3GuitarHost

/-- C14, refuted as stated: the tilt sample 1023 (bytes 0xFF, 0x03) is not
replaced by the rest value: the tilt axis is 1023 and the left trigger
255. -/
theorem C14_sample_1023_kept :
    PS3GuitarHost.raw_accel_x (tiltFrame 0xFF 0x03) = 1023 ∧
    ((guitarSession []).process_report sampleGamepad 1 0 (tiltFrame 0xFF 0x03)).2
      = [Event.set_pad_in { dpad := 1, buttons := 0x41, trigger_l := 255, accel_x := 1023 },
         Event.tuh_hid_receive_report 1 0] := by
  decide

/-- C14, amended: with raw = byte19 + 256*byte20, a 27-byte frame that
differs from the stored previous frame gives, for 0 < raw < 1024, the tilt
axis raw and the left trigger floor(raw/4), which is at most 255; and for
raw = 0 or raw >= 1024 the tilt axis 455 and the left trigger left at its
default 0. -/
theorem C14_tilt_and_left_trigger (self : PS3GuitarHost) (gamepad : Gamepad)
    (address inst : Nat) (frame : List Byte)
    (hlen : frame.length = 27) (hnew : frame ≠ self.prev_in_report_) :
    ∃ s : PadIn,
      (self.process_report gamepad address inst frame).2
        = [Event.set_pad_in s, Event.tuh_hid_receive_report address inst] ∧
      PS3GuitarHost.raw_accel_x frame = (frame.getD 19 0).val + 256 * (frame.getD 20 0).val ∧
      (0 < PS3GuitarHost.raw_accel_x frame → PS3GuitarHost.raw_accel_x frame < 1024 →
        s.accel_x = (PS3GuitarHost.raw_accel_x frame : Int) ∧
        s.trigger_l = PS3GuitarHost.raw_accel_x frame / 4 ∧ s.trigger_l ≤ 255) ∧
      (PS3GuitarHost.raw_accel_x frame = 0 ∨ 1024 ≤ PS3GuitarHost.raw_accel_x frame →
        s.accel_x = 455 ∧ s.trigger_l = 0) := by
  refine ⟨_, PS3GuitarHost.process_report_frame self gamepad address inst frame hlen hnew,
    PS3GuitarHost.raw_accel_x_eq frame, ?_, ?_⟩
  · intro h0 h1
    rw [PS3GuitarHost.gp_in_eq]
    simp only [h0, h1, and_self, if_true, toInt16, toUInt8]
    omega
  · intro h
    have hnot : ¬ (0 < PS3GuitarHost.raw_accel_x frame ∧
        PS3GuitarHost.raw_accel_x frame < 1024) := by
      omega
    rw [PS3GuitarHost.gp_in_eq]
    simp [hnot]

/-- C14 amended, at the worked example (sample 455) and at the sample
1024. -/
theorem C14_tilt_and_left_trigger_witness :
    (∃ s : PadIn,
      ((guitarSession []).process_report sampleGamepad 1 0 exampleFrame).2
        = [Event.set_pad_in s, Event.tuh_hid_receive_report 1 0] ∧
      s.accel_x = 455 ∧ s.trigger_l = 113) ∧
    (∃ s : PadIn,
      ((guitarSession []).process_report sampleGamepad 1 0 overRangeFrame).2
        = [Event.set_pad_in s, Event.tuh_hid_receive_report 1 0] ∧
      s.accel_x = 455 ∧ s.trigger_l = 0) := by
  constructor
  · obtain ⟨s, h, -, hin, -⟩ :=
      C14_tilt_and_left_trigger (guitarSession []) sampleGamepad 1 0 exampleFrame
        (by decide) (by decide)
    obtain ⟨ha, ht, -⟩ := hin (by decide) (by decide)
    exact ⟨s, h, by rw [ha]; decide, by rw [ht]; decide⟩
  · obtain ⟨s, h, -, -, hout⟩ :=
      C14_tilt_and_left_trigger (guitarSession []) sampleGamepad 1 0 overRangeFrame
        (by decide) (by decide)
    exact ⟨s, h, hout (by decide)⟩

/-- C15: in the snapshot of a 27-byte frame that differs from the stored
previous frame, right-stick X is (byte5 - 128) * 256, left-stick X is
(byte3 - 128) * 256 and left-stick Y is (byte4 - 128) * 256, exactly: the
value lies in -32768..32512, so the conversion to 16 bits does not wrap; a
byte of 128 gives 0; and of two such frames the one with the larger byte
has the larger axis value. -/
theorem C15_axis_rescale_exact (self : PS3GuitarHost) (gamepad : Gamepad)
    (address inst : Nat) (frame : List Byte)
    (hlen : frame.length = 27) (hnew : frame ≠ self.prev_in_report_) :
    ∃ s : PadIn,
      (self.process_report gamepad address inst frame).2
        = [Event.set_pad_in s, Event.tuh_hid_receive_report address inst] ∧
      s.joystick_rx = (((frame.getD 5 0).val : Int) - 128) * 256 ∧
      s.joystick_lx = (((frame.getD 3 0).val : Int) - 128) * 256 ∧
      s.joystick_ly = (((frame.getD 4 0).val : Int) - 128) * 256 ∧
      (-32768 ≤ s.joystick_rx ∧ s.joystick_rx ≤ 32512) ∧
      (-32768 ≤ s.joystick_lx ∧ s.joystick_lx ≤ 32512) ∧
      (-32768 ≤ s.joystick_ly ∧ s.joystick_ly ≤ 32512) ∧
      ((frame.getD 5 0).val = 128 → s.joystick_rx = 0) ∧
      ((frame.getD 3 0).val = 128 → s.joystick_lx = 0) ∧
      ((frame.getD 4 0).val = 128 → s.joystick_ly = 0) ∧
      (∀ (other : PS3GuitarHost) (frame' : List Byte), frame'.length = 27 →
        frame' ≠ other.prev_in_report_ →
        ∃ s' : PadIn,
          (other.process_report gamepad address inst frame').2
            = [Event.set_pad_in s', Event.tuh_hid_receive_report address inst] ∧
          ((frame.getD 5 0).val < (frame'.getD 5 0).val → s.joystick_rx < s'.joystick_rx) ∧
          ((frame.getD 3 0).val < (frame'.getD 3 0).val → s.joystick_lx < s'.joystick_lx) ∧
          ((frame.getD 4 0).val < (frame'.getD 4 0).val → s.joystick_ly < s'.joystick_ly)) := by
  have h3 : (frame.getD 3 0).val < 256 := (frame.getD 3 0).isLt
  have h4 : (frame.getD 4 0).val < 256 := (frame.getD 4 0).isLt
  have h5 : (frame.getD 5 0).val < 256 := (frame.getD 5 0).isLt
  have hrx : (PS3GuitarHost.gp_in gamepad frame).joystick_rx
      = (((frame.getD 5 0).val : Int) - 128) * 256 := by
    rw [PS3GuitarHost.gp_in_eq]; exact PS3GuitarHost.rescale_exact _ h5
  have hlx : (PS3GuitarHost.gp_in gamepad frame).joystick_lx
      = (((frame.getD 3 0).val : Int) - 128) * 256 := by
    rw [PS3GuitarHost.gp_in_eq]; exact PS3GuitarHost.rescale_exact _ h3
  have hly : (PS3GuitarHost.gp_in gamepad frame).joystick_ly
      = (((frame.getD 4 0).val : Int) - 128) * 256 := by
    rw [PS3GuitarHost.gp_in_eq]; exact PS3GuitarHost.rescale_exact _ h4
  refine ⟨_, PS3GuitarHost.process_report_frame self gamepad address inst frame hlen hnew,
    hrx, hlx, hly, ?_, ?_, ?_, ?_, ?_, ?_, ?_⟩
  · rw [hrx]; omega
  · rw [hlx]; omega
  · rw [hly]; omega
  · intro h; rw [hrx, h]; rfl
  · intro h; rw [hlx, h]; rfl
  · intro h; rw [hly, h]; rfl
  · intro other frame' hlen' hnew'
    have h3' : (frame'.getD 3 0).val < 256 := (frame'.getD 3 0).isLt
    have h4' : (frame'.getD 4 0).val < 256 := (frame'.getD 4 0).isLt
    have h5' : (frame'.getD 5 0).val < 256 := (frame'.getD 5 0).isLt
    have hrx' : (PS3GuitarHost.gp_in gamepad frame').joystick_rx
        = (((frame'.getD 5 0).val : Int) - 128) * 256 := by
      rw [PS3GuitarHost.gp_in_eq]; exact PS3GuitarHost.rescale_exact _ h5'
    have hlx' : (PS3GuitarHost.gp_in gamepad frame').joystick_lx
        = (((frame'.getD 3 0).val : Int) - 128) * 256 := by
      rw [PS3GuitarHost.gp_in_eq]; exact PS3GuitarHost.rescale_exact _ h3'
    have hly' : (PS3GuitarHost.gp_in gamepad frame').joystick_ly
        = (((frame'.getD 4 0).val : Int) - 128) * 256 := by
      rw [PS3GuitarHost.gp_in_eq]; exact PS3GuitarHost.rescale_exact _ h4'
    refine ⟨_, PS3GuitarHost.process_report_frame other gamepad address inst frame' hlen'
      hnew', ?_, ?_, ?_⟩
    · intro h; rw [hrx, hrx']; omega
    · intro h; rw [hlx, hlx']; omega
    · intro h; rw [hly, hly']; omega

/-- C15, at the worked example (every axis byte 128) and the same frame with
the whammy byte raised to 200. -/
theorem C15_axis_rescale_exact_witness :
    ∃ s s' : PadIn,
      ((guitarSession []).process_report sampleGamepad 1 0 exampleFrame).2
        = [Event.set_pad_in s, Event.tuh_hid_receive_report 1 0] ∧
      ((guitarSession []).process_report sampleGamepad 1 0 (exampleFrame.set 5 200)).2
        = [Event.set_pad_in s', Event.tuh_hid_receive_report 1 0] ∧
      s.joystick_rx = 0 ∧ s.joystick_rx < s'.joystick_rx := by
  obtain ⟨s, h, -, -, -, -, -, -, hzero, -, -, hmono⟩ :=
    C15_axis_rescale_exact (guitarSession []) sampleGamepad 1 0 exampleFrame
      (by decide) (by decide)
  obtain ⟨s', h', hlt, -, -⟩ := hmono (guitarSession []) (exampleFrame.set 5 200)
    (by decide) (by decide)
  exact ⟨s, s', h, h', hzero (by decide), hlt (by decide)⟩

/-- C16: two 27-byte frames, each different from the stored previous frame
of its session, that agree on bits 0x01, 0x08, 0x10, 0x40 of byte 0, on bits
0x04, 0x10, 0x20, 0x40, 0x80 of byte 1, on bit 0x01 of byte 2 and on bytes
3, 4, 5, 19 and 20 give the same snapshot, whatever their other bits and
bytes (byte 6, bytes 7 to 18, bytes 21 to 26). -/
theorem C16_uninterpreted_bytes_ignored (self₁ self₂ : PS3GuitarHost) (gamepad : Gamepad)
    (address inst : Nat) (f₁ f₂ : List Byte)
    (hlen₁ : f₁.length = 27) (hlen₂ : f₂.length = 27)
    (hnew₁ : f₁ ≠ self₁.prev_in_report_) (hnew₂ : f₂ ≠ self₂.prev_in_report_)
    (hb0 : ∀ m ∈ [0x01, 0x08, 0x10, 0x40],
      (f₁.getD 0 0).val &&& m = (f₂.getD 0 0).val &&& m)
    (hb1 : ∀ m ∈ [0x04, 0x10, 0x20, 0x40, 0x80],
      (f₁.getD 1 0).val &&& m = (f₂.getD 1 0).val &&& m)
    (hb2 : (f₁.getD 2 0).val &&& 0x01 = (f₂.getD 2 0).val &&& 0x01)
    (hb3 : f₁.getD 3 0 = f₂.getD 3 0) (hb4 : f₁.getD 4 0 = f₂.getD 4 0)
    (hb5 : f₁.getD 5 0 = f₂.getD 5 0)
    (hb19 : f₁.getD 19 0 = f₂.getD 19 0) (hb20 : f₁.getD 20 0 = f₂.getD 20 0) :
    ∃ s : PadIn,
      (self₁.process_report gamepad address inst f₁).2
        = [Event.set_pad_in s, Event.tuh_hid_receive_report address inst] ∧
      (self₂.process_report gamepad address inst f₂).2
        = [Event.set_pad_in s, Event.tuh_hid_receive_report address inst] := by
  refine ⟨_, PS3GuitarHost.process_report_frame self₁ gamepad address inst f₁ hlen₁ hnew₁, ?_⟩
  rw [PS3GuitarHost.process_report_frame self₂ gamepad address inst f₂ hlen₂ hnew₂]
  have e01 := hb0 0x01 (by simp)
  have e08 := hb0 0x08 (by simp)
  have e10 := hb0 0x10 (by simp)
  have e40 := hb0 0x40 (by simp)
  have g04 := hb1 0x04 (by simp)
  have g10 := hb1 0x10 (by simp)
  have g20 := hb1 0x20 (by simp)
  have g40 := hb1 0x40 (by simp)
  have g80 := hb1 0x80 (by simp)
  have heq : PS3GuitarHost.gp_in gamepad f₂ = PS3GuitarHost.gp_in gamepad f₁ := by
    simp only [PS3GuitarHost.gp_in_eq, PS3GuitarHost.raw_accel_x, PS3Guitar.buttons0,
      PS3Guitar.buttons1, PS3Guitar.buttons2, PS3Guitar.joystick_lx, PS3Guitar.joystick_ly,
      PS3Guitar.joystick_rx, PS3Guitar.Buttons0.STRUM_UP, PS3Guitar.Buttons0.STRUM_DOWN,
      PS3Guitar.Buttons0.START, PS3Guitar.Buttons0.SELECT, PS3Guitar.Buttons1.GREEN,
      PS3Guitar.Buttons1.RED, PS3Guitar.Buttons1.YELLOW, PS3Guitar.Buttons1.BLUE,
      PS3Guitar.Buttons1.ORANGE, PS3Guitar.Buttons2.PS,
      e01, e08, e10, e40, g04, g10, g20, g40, g80, hb2, hb3, hb4, hb5, hb19, hb20]
  rw [heq]

/-- C16, at the worked example and the same frame with byte 6, a vendor byte
and two later motion bytes changed, and bits 0x02 of byte 0 and 0x01 of byte
1 set. -/
theorem C16_uninterpreted_bytes_ignored_witness :
    ∃ s : PadIn,
      ((guitarSession []).process_report sampleGamepad 1 0 exampleFrame).2
        = [Event.set_pad_in s, Event.tuh_hid_receive_report 1 0] ∧
      ((guitarSession []).process_report sampleGamepad 1 0
          [0x13, 0x81, 0, 128, 128, 128, 7, 0, 9, 0, 0, 0, 0, 0, 0, 0, 0, 0, 0, 0xC7, 0x01,
           5, 0, 0, 0, 0, 6]).2
        = [Event.set_pad_in s, Event.tuh_hid_receive_report 1 0] :=
  C16_uninterpreted_bytes_ignored (guitarSession []) (guitarSession []) sampleGamepad 1 0
    exampleFrame
    [0x13, 0x81, 0, 128, 128, 128, 7, 0, 9, 0, 0, 0, 0, 0, 0, 0, 0, 0, 0, 0xC7, 0x01,
     5, 0, 0, 0, 0, 6]
    (by decide) (by decide) (by decide) (by decide) (by decide) (by decide) (by decide)
    (by decide) (by decide) (by decide) (by decide) (by decide)

/-- C17: a buffer of at least 27 bytes from which no Report ID is stripped
(27 bytes; 28 bytes with a first byte of 0x02 or more; more than 28 bytes)
is processed exactly as its first 27 bytes alone: the same new state (stored
previous frame) and the same calls (snapshot or suppression, and re-arm). -/
theorem C17_trailing_bytes_ignored (self : PS3GuitarHost) (gamepad : Gamepad)
    (address inst : Nat) (report : List Byte)
    (h : report.length = 27 ∨ (report.length = 28 ∧ 2 ≤ (report.getD 0 0).val) ∨
      28 < report.length) :
    self.process_report gamepad address inst report
      = self.process_report gamepad address inst (report.take 27) := by
  have hge : 27 ≤ report.length := by omega
  have hid : PS3GuitarHost.has_report_id report = false := by
    unfold PS3GuitarHost.has_report_id PS3GuitarHost.REPORT_SIZE_WITH_ID
    rcases h with h | ⟨h, h2⟩ | h
    · simp [h]
    · have h0 : report.getD 0 0 ≠ 0 := by
        intro hz; rw [hz] at h2; exact absurd h2 (by decide)
      have h1 : report.getD 0 0 ≠ 1 := by
        intro hz; rw [hz] at h2; exact absurd h2 (by decide)
      have e0 : (report.getD 0 0 == 0x00) = false := beq_false_of_ne h0
      have e1 : (report.getD 0 0 == 0x01) = false := beq_false_of_ne h1
      rw [e0, e1]
      simp
    · simp [Nat.ne_of_gt h]
  have hd : PS3GuitarHost.report_data report = report := by
    simp [PS3GuitarHost.report_data, hid]
  have hl : PS3GuitarHost.report_len report = report.length := by
    simp [PS3GuitarHost.report_len, hid]
  have htl : (report.take 27).length = 27 := by
    rw [List.length_take]; omega
  obtain ⟨hd', hl'⟩ := PS3GuitarHost.report_data_frame (report.take 27) htl
  have htt : (PS3GuitarHost.report_data (report.take 27)).take 27
      = (PS3GuitarHost.report_data report).take 27 := by
    rw [hd', hd, List.take_take]; simp
  by_cases hdup : self.prev_in_report_ = (PS3GuitarHost.report_data report).take 27
  · rw [PS3GuitarHost.process_report_duplicate self gamepad address inst report
        (by rw [hl]; exact hge) hdup,
      PS3GuitarHost.process_report_duplicate self gamepad address inst (report.take 27)
        (by rw [hl']) (by rw [htt]; exact hdup)]
  · obtain ⟨p1, t1⟩ := PS3GuitarHost.process_report_changed self gamepad address inst report
      (by rw [hl]; exact hge) hdup
    obtain ⟨p2, t2⟩ := PS3GuitarHost.process_report_changed self gamepad address inst
      (report.take 27) (by rw [hl']) (by rw [htt]; exact hdup)
    refine Prod.ext (PS3GuitarHost.ext_state ?_) ?_
    · rw [p1, p2, htt]
    · rw [t1, t2, hd', hd, PS3GuitarHost.gp_in_take]

/-- C17, at the worked example followed by three more bytes. -/
theorem C17_trailing_bytes_ignored_witness :
    (guitarSession []).process_report sampleGamepad 1 0 (exampleFrame ++ [9, 8, 7])
      = (guitarSession []).process_report sampleGamepad 1 0 exampleFrame :=
  C17_trailing_bytes_ignored (guitarSession []) sampleGamepad 1 0 (exampleFrame ++ [9, 8, 7])
    (by decide)

end OGXMini
